import Mathlib

/-!
A shallow embedding of the `txf` backtest engine (Taiwan futures backtester)
and proofs about its per-bar scheduling protocol, matching rules, position
accounting, risk manager and stop engine.

Modelling conventions:
* `Decimal` money values are embedded as `ℚ` (all accounting paths use
  addition, subtraction and multiplication, which are exact in both).
* Quantities and bar indices are `ℕ`; timestamps are `ℕ` (opaque ordinals).
* Python `dict`s keyed by symbol become insertion-ordered association
  lists (`List (String × β)`), matching `dict` iteration order.
* Mutable classes become state-passing functions returning the new state.
* `uuid` order ids are opaque strings; their content is never inspected
  by the code paths modelled here.
-/

/-- `txf.core.types.Side`. -/
inductive Side where
  | BUY : Side
  | SELL : Side
deriving DecidableEq

/-- `Side.opposite` from `txf.core.types`. -/
def Side.opposite : Side → Side
  | Side.BUY => Side.SELL
  | Side.SELL => Side.BUY

/-- `txf.core.types.PriceType`. -/
inductive PriceType where
  | MARKET : PriceType
  | LIMIT : PriceType
deriving DecidableEq

/-- `txf.core.types.Bar` (OHLCV bar). The Python field `open` is a Lean
keyword, embedded as `open_`. `volume`, `open_interest` and `session` are
never read by the code modelled here and are omitted. -/
structure Bar where
  symbol : String
  timestamp : ℕ
  open_ : ℚ
  high : ℚ
  low : ℚ
  close : ℚ
deriving DecidableEq

/-- `txf.core.types.OrderRequest`. -/
structure OrderRequest where
  id : String
  symbol : String
  side : Side
  quantity : ℕ
  price_type : PriceType
  price : Option ℚ := none
  timestamp : Option ℕ := none
deriving DecidableEq

/-- `txf.core.types.Fill`. -/
structure Fill where
  order_id : String
  symbol : String
  side : Side
  price : ℚ
  quantity : ℕ
  commission : ℚ
  tax : ℚ
  timestamp : ℕ
deriving DecidableEq

/-- `txf.core.types.Position`. -/
structure Position where
  symbol : String
  side : Side
  quantity : ℕ
  avg_price : ℚ
  unrealized_pnl : ℚ := 0
  margin_required : ℚ := 0
deriving DecidableEq

/-- `Position.is_long`. -/
def Position.is_long (p : Position) : Bool := p.side = Side.BUY

/-- `Position.is_short`. -/
def Position.is_short (p : Position) : Bool := p.side = Side.SELL

/-- `txf.core.types.TradeRecord`. -/
structure TradeRecord where
  symbol : String
  side : Side
  entry_price : ℚ
  exit_price : ℚ
  quantity : ℕ
  entry_time : ℕ
  exit_time : ℕ
  pnl : ℚ
  commission : ℚ
  tax : ℚ
  bars_held : ℕ := 0
deriving DecidableEq

/-- `txf.core.types.PortfolioState`. -/
structure PortfolioState where
  cash : ℚ
  positions : List (String × Position)
  total_equity : ℚ
  used_margin : ℚ
  available_margin : ℚ
  realized_pnl : ℚ
  unrealized_pnl : ℚ
deriving DecidableEq

/-- `txf.config.contracts.ContractSpec` (the fields read by the core). -/
structure ContractSpec where
  multiplier : ℚ
  tick_size : ℚ
  initial_margin : ℚ
  maintenance_margin : ℚ
deriving DecidableEq

/-- Dictionary read (`dict.get`) on an insertion-ordered association list. -/
def lookupSym {β : Type} : List (String × β) → String → Option β
  | [], _ => none
  | (k, v) :: rest, s => if k = s then some v else lookupSym rest s

/-- Dictionary write (`dict[s] = v`): replaces in place, appends if new. -/
def insertSym {β : Type} : List (String × β) → String → β → List (String × β)
  | [], s, v => [(s, v)]
  | (k, w) :: rest, s, v =>
      if k = s then (s, v) :: rest else (k, w) :: insertSym rest s v

/-- Dictionary delete (`dict.pop(s, None)`). -/
def removeSym {β : Type} (l : List (String × β)) (s : String) : List (String × β) :=
  l.filter fun kv => decide (kv.1 ≠ s)

/-- `txf.position.calculator.calculate_unrealized_pnl`. -/
def calculate_unrealized_pnl (side : Side) (avg_price current_price : ℚ)
    (quantity : ℕ) (multiplier : ℚ) : ℚ :=
  match side with
  | Side.BUY => (current_price - avg_price) * quantity * multiplier
  | Side.SELL => (avg_price - current_price) * quantity * multiplier

/-- `txf.position.calculator.calculate_realized_pnl`. -/
def calculate_realized_pnl (side : Side) (entry_price exit_price : ℚ)
    (quantity : ℕ) (multiplier : ℚ) : ℚ :=
  match side with
  | Side.BUY => (exit_price - entry_price) * quantity * multiplier
  | Side.SELL => (entry_price - exit_price) * quantity * multiplier

/-- `txf.position.calculator.calculate_margin_required`. -/
def calculate_margin_required (quantity : ℕ) (spec : ContractSpec) : ℚ :=
  spec.initial_margin * quantity

/-- `txf.position.calculator.calculate_notional_value`. -/
def calculate_notional_value (price : ℚ) (quantity : ℕ) (multiplier : ℚ) : ℚ :=
  price * quantity * multiplier

/-- `txf.backtest.commission.CommissionModel`. -/
structure CommissionModel where
  commission_per_contract : ℚ
  tax_rate : ℚ
deriving DecidableEq

/-- `CommissionModel.calculate_commission`. -/
def CommissionModel.calculate_commission (m : CommissionModel) (quantity : ℕ) : ℚ :=
  m.commission_per_contract * quantity

/-- `CommissionModel.calculate_tax`. -/
def CommissionModel.calculate_tax (m : CommissionModel) (notional_value : ℚ) : ℚ :=
  notional_value * m.tax_rate

/-- `txf.position.manager.PositionManager` state. -/
structure PositionManager where
  initial_capital : ℚ
  cash : ℚ
  positions : List (String × Position)
  realized_pnl : ℚ
  trade_records : List TradeRecord
  equity_curve : List ℚ
  entry_bar_index : List (String × ℕ)
  current_bar_index : ℕ
deriving DecidableEq

/-- `PositionManager.__init__`. -/
def mkPositionManager (initial_capital : ℚ) : PositionManager :=
  { initial_capital := initial_capital
    cash := initial_capital
    positions := []
    realized_pnl := 0
    trade_records := []
    equity_curve := []
    entry_bar_index := []
    current_bar_index := 0 }

/-- `PositionManager._open_position`. -/
def PositionManager.open_position (pm : PositionManager) (fill : Fill)
    (initial_margin : ℚ) : PositionManager :=
  { pm with
    positions := insertSym pm.positions fill.symbol
      { symbol := fill.symbol
        side := fill.side
        quantity := fill.quantity
        avg_price := fill.price
        unrealized_pnl := 0
        margin_required := initial_margin * fill.quantity }
    entry_bar_index := insertSym pm.entry_bar_index fill.symbol pm.current_bar_index }

/-- `PositionManager._add_to_position`. -/
def PositionManager.add_to_position (pm : PositionManager) (fill : Fill)
    (pos : Position) (initial_margin : ℚ) : PositionManager :=
  let total_qty : ℕ := pos.quantity + fill.quantity
  { pm with
    positions := insertSym pm.positions fill.symbol
      { pos with
        avg_price := (pos.avg_price * pos.quantity + fill.price * fill.quantity) / total_qty
        quantity := total_qty
        margin_required := initial_margin * total_qty } }

/-- `PositionManager._reduce_or_reverse` (fill on the opposite side of the
existing position: partial close, full close or reverse). -/
def PositionManager.reduce_or_reverse (pm : PositionManager) (fill : Fill)
    (pos : Position) (spec : ContractSpec) : PositionManager :=
  let close_qty : ℕ := min fill.quantity pos.quantity
  let remaining_fill_qty : ℕ := fill.quantity - close_qty
  let pnl := calculate_realized_pnl pos.side pos.avg_price fill.price close_qty spec.multiplier
  let pm1 := { pm with realized_pnl := pm.realized_pnl + pnl, cash := pm.cash + pnl }
  let entry_bar := (lookupSym pm1.entry_bar_index fill.symbol).getD 0
  let record : TradeRecord :=
    { symbol := fill.symbol
      side := pos.side
      entry_price := pos.avg_price
      exit_price := fill.price
      quantity := close_qty
      entry_time := fill.timestamp
      exit_time := fill.timestamp
      pnl := pnl
      commission := fill.commission
      tax := fill.tax
      bars_held := pm1.current_bar_index - entry_bar }
  let pm2 := { pm1 with trade_records := pm1.trade_records ++ [record] }
  let new_qty : ℕ := pos.quantity - close_qty
  let zeroed : Position := { pos with quantity := 0, unrealized_pnl := 0, margin_required := 0 }
  if new_qty = 0 ∧ remaining_fill_qty = 0 then
    { pm2 with positions := insertSym pm2.positions fill.symbol zeroed }
  else if 0 < new_qty then
    let reduced : Position :=
      { pos with quantity := new_qty, margin_required := spec.initial_margin * new_qty }
    { pm2 with positions := insertSym pm2.positions fill.symbol reduced }
  else
    let pm3 := { pm2 with positions := insertSym pm2.positions fill.symbol zeroed }
    if 0 < remaining_fill_qty then
      { pm3 with
        positions := insertSym pm3.positions fill.symbol
          { symbol := fill.symbol
            side := fill.side
            quantity := remaining_fill_qty
            avg_price := fill.price
            unrealized_pnl := 0
            margin_required := spec.initial_margin * remaining_fill_qty }
        entry_bar_index := insertSym pm3.entry_bar_index fill.symbol pm3.current_bar_index }
    else pm3

/-- `PositionManager.apply_fill`. The contract registry `get` is embedded as
the total function `specOf` (all symbols used in this development resolve). -/
def PositionManager.apply_fill (specOf : String → ContractSpec)
    (pm : PositionManager) (fill : Fill) : PositionManager :=
  let spec := specOf fill.symbol
  let existing := lookupSym pm.positions fill.symbol
  let pm1 := { pm with cash := pm.cash - (fill.commission + fill.tax) }
  match existing with
  | none => pm1.open_position fill spec.initial_margin
  | some pos =>
      if pos.quantity = 0 then pm1.open_position fill spec.initial_margin
      else if pos.side = fill.side then pm1.add_to_position fill pos spec.initial_margin
      else pm1.reduce_or_reverse fill pos spec

/-- `PositionManager.mark_to_market`. -/
def PositionManager.mark_to_market (specOf : String → ContractSpec)
    (pm : PositionManager) (symbol : String) (current_price : ℚ) : PositionManager :=
  match lookupSym pm.positions symbol with
  | none => pm
  | some pos =>
      if pos.quantity = 0 then pm
      else
        let spec := specOf symbol
        let marked : Position :=
          { pos with
            unrealized_pnl := calculate_unrealized_pnl pos.side pos.avg_price
              current_price pos.quantity spec.multiplier
            margin_required := calculate_margin_required pos.quantity spec }
        { pm with positions := insertSym pm.positions symbol marked }

/-- Sum of `unrealized_pnl` over open positions (the generator expression in
`PositionManager.total_equity` / `get_portfolio_state`). -/
def PositionManager.total_unrealized (pm : PositionManager) : ℚ :=
  ((pm.positions.filter fun kv => decide (0 < kv.2.quantity)).map
    fun kv => kv.2.unrealized_pnl).sum

/-- Sum of `margin_required` over open positions. -/
def PositionManager.used_margin_total (pm : PositionManager) : ℚ :=
  ((pm.positions.filter fun kv => decide (0 < kv.2.quantity)).map
    fun kv => kv.2.margin_required).sum

/-- `PositionManager.total_equity`. -/
def PositionManager.total_equity (pm : PositionManager) : ℚ :=
  pm.cash + pm.total_unrealized

/-- `PositionManager.snapshot_equity`. -/
def PositionManager.snapshot_equity (pm : PositionManager) : PositionManager :=
  { pm with equity_curve := pm.equity_curve ++ [pm.total_equity] }

/-- `PositionManager.get_position`. -/
def PositionManager.get_position (pm : PositionManager) (symbol : String) : Option Position :=
  match lookupSym pm.positions symbol with
  | none => none
  | some pos => if pos.quantity = 0 then none else some pos

/-- `PositionManager.get_portfolio_state`. -/
def PositionManager.get_portfolio_state (pm : PositionManager) : PortfolioState :=
  { cash := pm.cash
    positions := pm.positions.filter fun kv => decide (0 < kv.2.quantity)
    total_equity := pm.total_equity
    used_margin := pm.used_margin_total
    available_margin := pm.total_equity - pm.used_margin_total
    realized_pnl := pm.realized_pnl
    unrealized_pnl := pm.total_unrealized }

/-- `PositionManager.set_bar_index`. -/
def PositionManager.set_bar_index (pm : PositionManager) (index : ℕ) : PositionManager :=
  { pm with current_bar_index := index }

/-- `txf.backtest.matching.MatchingEngine` state (the contract registry is
passed separately as `specOf`). -/
structure MatchingEngine where
  commission : CommissionModel
  slippage_ticks : ℕ
  pending_orders : List OrderRequest
deriving DecidableEq

/-- `MatchingEngine.submit_order`. -/
def MatchingEngine.submit_order (m : MatchingEngine) (order : OrderRequest) : MatchingEngine :=
  { m with pending_orders := m.pending_orders ++ [order] }

/-- `MatchingEngine._create_fill`. -/
def MatchingEngine.create_fill (specOf : String → ContractSpec) (m : MatchingEngine)
    (order : OrderRequest) (price : ℚ) (timestamp : ℕ) : Fill :=
  let spec := specOf order.symbol
  { order_id := order.id
    symbol := order.symbol
    side := order.side
    price := price
    quantity := order.quantity
    commission := m.commission.calculate_commission order.quantity
    tax := m.commission.calculate_tax
      (calculate_notional_value price order.quantity spec.multiplier)
    timestamp := timestamp }

/-- `MatchingEngine._try_fill`. -/
def MatchingEngine.try_fill (specOf : String → ContractSpec) (m : MatchingEngine)
    (order : OrderRequest) (bar : Bar) : Option Fill :=
  let spec := specOf order.symbol
  match order.price_type with
  | PriceType.MARKET =>
      let slippage := spec.tick_size * m.slippage_ticks
      let fill_price :=
        match order.side with
        | Side.BUY => bar.open_ + slippage
        | Side.SELL => bar.open_ - slippage
      some (m.create_fill specOf order fill_price bar.timestamp)
  | PriceType.LIMIT =>
      match order.price with
      | none => none
      | some limit =>
          match order.side with
          | Side.BUY =>
              if bar.low ≤ limit then
                some (m.create_fill specOf order (min limit bar.open_) bar.timestamp)
              else none
          | Side.SELL =>
              if bar.high ≥ limit then
                some (m.create_fill specOf order (max limit bar.open_) bar.timestamp)
              else none

/-- The queue scan inside `MatchingEngine.on_bar`: returns the fills produced
(in queue order) and the orders that remain queued (in queue order). -/
def matchScan (specOf : String → ContractSpec) (m : MatchingEngine) (bar : Bar) :
    List OrderRequest → List Fill × List OrderRequest
  | [] => ([], [])
  | order :: rest =>
      let tail := matchScan specOf m bar rest
      if order.symbol = bar.symbol then
        match m.try_fill specOf order bar with
        | some fill => (fill :: tail.1, tail.2)
        | none => (tail.1, order :: tail.2)
      else (tail.1, order :: tail.2)

/-- `MatchingEngine.on_bar`: scans the pending queue against the bar, returns
the fills produced this call and the engine with unfilled orders remaining. -/
def MatchingEngine.on_bar (specOf : String → ContractSpec) (m : MatchingEngine)
    (bar : Bar) : List Fill × MatchingEngine :=
  let scanned := matchScan specOf m bar m.pending_orders
  (scanned.1, { m with pending_orders := scanned.2 })

/-- `txf.risk.stops.StopConfig`. -/
structure StopConfig where
  stop_loss_points : Option ℤ := none
  take_profit_points : Option ℤ := none
  trailing_stop_points : Option ℤ := none
  time_stop_bars : Option ℕ := none
deriving DecidableEq

/-- `txf.risk.stops.StopEngine` state. -/
structure StopEngine where
  config : StopConfig
  trailing_extremes : List (String × ℚ)
deriving DecidableEq

/-- `StopEngine._check_stop_loss`. -/
def StopEngine.check_stop_loss (e : StopEngine) (bar : Bar) (pos : Position) : Bool :=
  match e.config.stop_loss_points with
  | none => false
  | some pts =>
      if pos.is_long then decide (bar.low ≤ pos.avg_price - (pts : ℚ))
      else decide (bar.high ≥ pos.avg_price + (pts : ℚ))

/-- `StopEngine._check_take_profit`. -/
def StopEngine.check_take_profit (e : StopEngine) (bar : Bar) (pos : Position) : Bool :=
  match e.config.take_profit_points with
  | none => false
  | some pts =>
      if pos.is_long then decide (bar.high ≥ pos.avg_price + (pts : ℚ))
      else decide (bar.low ≤ pos.avg_price - (pts : ℚ))

/-- `StopEngine._check_trailing_stop`. -/
def StopEngine.check_trailing_stop (e : StopEngine) (bar : Bar) (pos : Position) : Bool :=
  match e.config.trailing_stop_points with
  | none => false
  | some pts =>
      match lookupSym e.trailing_extremes bar.symbol with
      | none => false
      | some extreme =>
          if pos.is_long then decide (bar.low ≤ extreme - (pts : ℚ))
          else decide (bar.high ≥ extreme + (pts : ℚ))

/-- `StopEngine._check_time_stop`. -/
def StopEngine.check_time_stop (e : StopEngine) (bars_held : ℕ) : Bool :=
  match e.config.time_stop_bars with
  | none => false
  | some n => decide (bars_held ≥ n)

/-- `StopEngine._update_trailing`. -/
def StopEngine.update_trailing (e : StopEngine) (bar : Bar) (pos : Position) : StopEngine :=
  match e.config.trailing_stop_points with
  | none => e
  | some _ =>
      let current := lookupSym e.trailing_extremes bar.symbol
      if pos.is_long then
        let new_extreme := bar.high
        match current with
        | none =>
            { e with trailing_extremes := insertSym e.trailing_extremes bar.symbol new_extreme }
        | some c =>
            if new_extreme > c then
              { e with trailing_extremes := insertSym e.trailing_extremes bar.symbol new_extreme }
            else e
      else
        let new_extreme := bar.low
        match current with
        | none =>
            { e with trailing_extremes := insertSym e.trailing_extremes bar.symbol new_extreme }
        | some c =>
            if new_extreme < c then
              { e with trailing_extremes := insertSym e.trailing_extremes bar.symbol new_extreme }
            else e

/-- `StopEngine._close_order`. The Python id is `stop_` followed by a fresh
uuid; the id is opaque to every consumer, so it is embedded as a fixed tag. -/
def StopEngine.close_order (symbol : String) (pos : Position) : OrderRequest :=
  { id := "stop_" ++ symbol
    symbol := symbol
    side := pos.side.opposite
    quantity := pos.quantity
    price_type := PriceType.MARKET
    price := none
    timestamp := none }

/-- `StopEngine.on_bar`: check stop conditions, returning a close order if one
triggered together with the updated engine state. -/
def StopEngine.on_bar (e : StopEngine) (bar : Bar) (position : Option Position)
    (bars_held : ℕ) : Option OrderRequest × StopEngine :=
  match position with
  | none => (none, { e with trailing_extremes := removeSym e.trailing_extremes bar.symbol })
  | some pos =>
      if pos.quantity = 0 then
        (none, { e with trailing_extremes := removeSym e.trailing_extremes bar.symbol })
      else
        let e1 := e.update_trailing bar pos
        if e1.check_stop_loss bar pos then (some (StopEngine.close_order bar.symbol pos), e1)
        else if e1.check_take_profit bar pos then (some (StopEngine.close_order bar.symbol pos), e1)
        else if e1.check_trailing_stop bar pos then (some (StopEngine.close_order bar.symbol pos), e1)
        else if e1.check_time_stop bars_held then (some (StopEngine.close_order bar.symbol pos), e1)
        else (none, e1)

/-- `StopEngine.reset`. -/
def StopEngine.reset (e : StopEngine) (symbol : String) : StopEngine :=
  { e with trailing_extremes := removeSym e.trailing_extremes symbol }

/-- `txf.risk.realtime.RealtimeRiskMonitor` state. -/
structure RealtimeRiskMonitor where
  max_drawdown_pct : ℚ
  max_daily_loss : ℚ
  peak_equity : ℚ
  session_start_equity : ℚ
  trading_halted : Bool
deriving DecidableEq

/-- Models `RealtimeRiskMonitor.initialize` (renamed: the source name collides
with a reserved word of this development). -/
def RealtimeRiskMonitor.initEquity (mon : RealtimeRiskMonitor)
    (initial_equity : ℚ) : RealtimeRiskMonitor :=
  { mon with peak_equity := initial_equity, session_start_equity := initial_equity }

/-- `RealtimeRiskMonitor.update`: returns the warning messages and the updated
monitor. Messages are embedded as fixed tags (their text is only reported). -/
def RealtimeRiskMonitor.update (mon : RealtimeRiskMonitor)
    (portfolio : PortfolioState) : List String × RealtimeRiskMonitor :=
  let mon1 :=
    if portfolio.total_equity > mon.peak_equity then
      { mon with peak_equity := portfolio.total_equity }
    else mon
  let step1 : List String × RealtimeRiskMonitor :=
    if 0 < mon1.peak_equity then
      if (mon1.peak_equity - portfolio.total_equity) / mon1.peak_equity ≥ mon1.max_drawdown_pct then
        (["DRAWDOWN BREACH"], { mon1 with trading_halted := true })
      else ([], mon1)
    else ([], mon1)
  let marginWarnings : List String :=
    (portfolio.positions.filter fun kv =>
        decide (0 < kv.2.margin_required) && decide (0 < kv.2.quantity)).filterMap
      fun kv =>
        if portfolio.total_equity < portfolio.used_margin * (3 / 4 : ℚ) then
          some ("MARGIN CALL " ++ kv.1)
        else none
  let mon2 := step1.2
  let step3 : List String × RealtimeRiskMonitor :=
    if portfolio.total_equity - mon2.session_start_equity ≤ -mon2.max_daily_loss then
      (["DAILY LOSS LIMIT"], { mon2 with trading_halted := true })
    else ([], mon2)
  (step1.1 ++ marginWarnings ++ step3.1, step3.2)

/-- `RealtimeRiskMonitor.should_force_close`. -/
def RealtimeRiskMonitor.should_force_close (mon : RealtimeRiskMonitor) : Bool :=
  mon.trading_halted

/-- `RealtimeRiskMonitor.reset_session`. -/
def RealtimeRiskMonitor.reset_session (mon : RealtimeRiskMonitor)
    (equity : ℚ) : RealtimeRiskMonitor :=
  { mon with session_start_equity := equity, trading_halted := false }

/-- `txf.risk.limits.LimitChecker`. -/
structure LimitChecker where
  max_position_contracts : ℕ
  max_total_exposure_pct : ℚ
deriving DecidableEq

/-- `LimitChecker.check_position_limit`. -/
def LimitChecker.check_position_limit (lc : LimitChecker) (order : OrderRequest)
    (portfolio : PortfolioState) : Option String :=
  let current_pos := lookupSym portfolio.positions order.symbol
  let new_qty : ℕ :=
    match current_pos with
    | some p =>
        if p.side = order.side then p.quantity + order.quantity
        else ((p.quantity : ℤ) - (order.quantity : ℤ)).natAbs
    | none => order.quantity
  if new_qty > lc.max_position_contracts then some "Position limit exceeded" else none

/-- `txf.risk.pre_trade.PreTradeRiskCheck` state. -/
structure PreTradeRiskCheck where
  max_daily_loss : ℚ
  daily_realized_pnl : ℚ
deriving DecidableEq

/-- `PreTradeRiskCheck.update_daily_pnl` (note: assignment, not accumulation). -/
def PreTradeRiskCheck.update_daily_pnl (pt : PreTradeRiskCheck)
    (realized_pnl : ℚ) : PreTradeRiskCheck :=
  { pt with daily_realized_pnl := realized_pnl }

/-- `PreTradeRiskCheck.reset_daily`. -/
def PreTradeRiskCheck.reset_daily (pt : PreTradeRiskCheck) : PreTradeRiskCheck :=
  { pt with daily_realized_pnl := 0 }

/-- `PreTradeRiskCheck._check_margin`. -/
def PreTradeRiskCheck.check_margin (specOf : String → ContractSpec)
    (order : OrderRequest) (portfolio : PortfolioState) : Option String :=
  let spec := specOf order.symbol
  let againstMargin : Option String :=
    if spec.initial_margin * order.quantity > portfolio.available_margin then
      some "Insufficient margin"
    else none
  match lookupSym portfolio.positions order.symbol with
  | some existing => if existing.side ≠ order.side then none else againstMargin
  | none => againstMargin

/-- `PreTradeRiskCheck._check_daily_loss`. -/
def PreTradeRiskCheck.check_daily_loss (pt : PreTradeRiskCheck) : Option String :=
  if -pt.daily_realized_pnl ≥ pt.max_daily_loss then some "Daily loss limit reached"
  else none

/-- `PreTradeRiskCheck.check`: margin, then position limit, then daily loss. -/
def PreTradeRiskCheck.check (specOf : String → ContractSpec) (pt : PreTradeRiskCheck)
    (lc : LimitChecker) (order : OrderRequest) (portfolio : PortfolioState) : Option String :=
  match PreTradeRiskCheck.check_margin specOf order portfolio with
  | some reason => some reason
  | none =>
      match lc.check_position_limit order portfolio with
      | some reason => some reason
      | none => pt.check_daily_loss

/-- `txf.risk.manager.RiskManager` state. -/
structure RiskManager where
  limit_checker : LimitChecker
  pre_trade : PreTradeRiskCheck
  stop : StopEngine
  realtime : RealtimeRiskMonitor
  inited : Bool
deriving DecidableEq

/-- `RiskManager.check_pre_trade`: refuses everything when halted, otherwise
feeds the cumulative realized P&L to the daily counter and delegates. Returns
the optional rejection reason and the updated risk state. -/
def RiskManager.check_pre_trade (specOf : String → ContractSpec) (rm : RiskManager)
    (pm : PositionManager) (order : OrderRequest) : Option String × RiskManager :=
  if rm.realtime.trading_halted then (some "Trading halted due to risk breach", rm)
  else
    let portfolio := pm.get_portfolio_state
    let rm1 := { rm with pre_trade := rm.pre_trade.update_daily_pnl portfolio.realized_pnl }
    (PreTradeRiskCheck.check specOf rm1.pre_trade rm1.limit_checker order portfolio, rm1)

/-- The forced close order built in `RiskManager.on_bar` for a halted session. -/
def riskCloseOrder (sym : String) (pos : Position) : OrderRequest :=
  { id := "risk_close_" ++ sym
    symbol := sym
    side := pos.side.opposite
    quantity := pos.quantity
    price_type := PriceType.MARKET
    price := none
    timestamp := none }

/-- The per-position stop-engine loop at the end of `RiskManager.on_bar`. -/
def stopScan (pm : PositionManager) (bar : Bar) :
    List (String × Position) → StopEngine → List OrderRequest × StopEngine
  | [], e => ([], e)
  | (sym, pos) :: rest, e =>
      let entry_bar := (lookupSym pm.entry_bar_index sym).getD 0
      let bars_held := pm.current_bar_index - entry_bar
      let checked := e.on_bar bar (some pos) bars_held
      let tail := stopScan pm bar rest checked.2
      match checked.1 with
      | some o => (o :: tail.1, tail.2)
      | none => (tail.1, tail.2)

/-- `RiskManager.on_bar`: per-bar risk checks, returning forced orders and the
updated risk state. -/
def RiskManager.on_bar (specOf : String → ContractSpec) (rm : RiskManager)
    (pm : PositionManager) (bar : Bar) : List OrderRequest × RiskManager :=
  let rm0 :=
    if rm.inited then rm
    else { rm with realtime := rm.realtime.initEquity pm.total_equity, inited := true }
  let portfolio := pm.get_portfolio_state
  let updated := rm0.realtime.update portfolio
  let rm1 := { rm0 with realtime := updated.2 }
  if updated.1 ≠ [] ∧ rm1.realtime.should_force_close then
    (portfolio.positions.map fun kv => riskCloseOrder kv.1 kv.2, rm1)
  else
    let scanned := stopScan pm bar portfolio.positions rm1.stop
    (scanned.1, { rm1 with stop := scanned.2 })

/-- The mutable state owned by `BacktestEngine`. The clock and event bus carry
no data read back by the loop and are omitted. -/
structure EngineState where
  matching : MatchingEngine
  pm : PositionManager
  risk : RiskManager
deriving DecidableEq

/-- A strategy, in full generality: at step 6 of bar `i` it may submit any
list of orders, computed from anything it could observe (the bar, the index
and the whole engine state). This over-approximates every user strategy. -/
def Strat : Type := ℕ → Bar → EngineState → List OrderRequest

/-- `BacktestEngine._on_order_submitted` folded over the strategy's orders:
each order runs through `RiskManager.check_pre_trade`; accepted orders enter
the matching queue, rejected orders are dropped (an event is published).
Returns the new state and the list of accepted (queued) orders. -/
def submitStrategyOrders (specOf : String → ContractSpec) :
    EngineState → List OrderRequest → EngineState × List OrderRequest
  | st, [] => (st, [])
  | st, o :: rest =>
      let checked := st.risk.check_pre_trade specOf st.pm o
      let st1 : EngineState := { st with risk := checked.2 }
      match checked.1 with
      | some _ => submitStrategyOrders specOf st1 rest
      | none =>
          let st2 : EngineState := { st1 with matching := st1.matching.submit_order o }
          let tail := submitStrategyOrders specOf st2 rest
          (tail.1, o :: tail.2)

/-- Steps 1–5 of one iteration of `BacktestEngine.run` for bar `i`: set the
bar index, match pending orders (applying each fill through the fill
callback), mark to market, run per-bar risk and queue its forced orders.
Returns the state just before the strategy callback, plus the fills produced
and the risk orders submitted. -/
def engineStepCore (specOf : String → ContractSpec) (i : ℕ) (st : EngineState)
    (bar : Bar) : EngineState × List Fill × List OrderRequest :=
  let pm0 := st.pm.set_bar_index i
  let matched := st.matching.on_bar specOf bar
  let pm1 := matched.1.foldl (PositionManager.apply_fill specOf) pm0
  let pm2 := pm1.mark_to_market specOf bar.symbol bar.close
  let risked := st.risk.on_bar specOf pm2 bar
  let m2 := risked.1.foldl MatchingEngine.submit_order matched.2
  ({ matching := m2, pm := pm2, risk := risked.2 }, matched.1, risked.1)

/-- One full iteration of `BacktestEngine.run` for bar `i`: steps 1–5, then
the strategy callback's submissions, then the equity snapshot. Returns the
new state, the fills produced in step 2, and every order submitted to the
matching queue during this bar (risk orders and accepted strategy orders). -/
def engineStep (specOf : String → ContractSpec) (strat : Strat) (i : ℕ)
    (st : EngineState) (bar : Bar) : EngineState × List Fill × List OrderRequest :=
  let core := engineStepCore specOf i st bar
  let st1 := core.1
  let submitted := submitStrategyOrders specOf st1 (strat i bar st1)
  let st2 := submitted.1
  ({ st2 with pm := st2.pm.snapshot_equity }, core.2.1, core.2.2 ++ submitted.2)

/-- The loop of `BacktestEngine.run`, starting at bar index `i`. -/
def runFrom (specOf : String → ContractSpec) (strat : Strat) :
    ℕ → EngineState → List Bar → EngineState
  | _, st, [] => st
  | i, st, bar :: rest => runFrom specOf strat (i + 1) (engineStep specOf strat i st bar).1 rest

/-- The engine state entering bar `i` of a run over `bars`. -/
def stateBefore (specOf : String → ContractSpec) (strat : Strat) (st0 : EngineState)
    (bars : List Bar) (i : ℕ) : EngineState :=
  runFrom specOf strat 0 st0 (bars.take i)

/-- The fills produced at step 2 of bar `i` of a run. -/
def fillsAt (specOf : String → ContractSpec) (strat : Strat) (st0 : EngineState)
    (bars : List Bar) (i : ℕ) : List Fill :=
  match bars.get? i with
  | none => []
  | some bar => (engineStep specOf strat i (stateBefore specOf strat st0 bars i) bar).2.1

/-- The orders submitted to the matching queue during bar `i` of a run (risk
orders from step 4 and accepted strategy orders from step 6). -/
def submittedAt (specOf : String → ContractSpec) (strat : Strat) (st0 : EngineState)
    (bars : List Bar) (i : ℕ) : List OrderRequest :=
  match bars.get? i with
  | none => []
  | some bar => (engineStep specOf strat i (stateBefore specOf strat st0 bars i) bar).2.2

/-! ### Fill accounting (shared helpers) -/

/-- The realized P&L of the slice of an existing position closed by a fill:
zero when the fill opens or adds, and the slice P&L from
`calculate_realized_pnl` when the fill reduces, closes or reverses. -/
def closedSlicePnl (specOf : String → ContractSpec) (pm : PositionManager)
    (fill : Fill) : ℚ :=
  match lookupSym pm.positions fill.symbol with
  | none => 0
  | some pos =>
      if pos.quantity = 0 then 0
      else if pos.side = fill.side then 0
      else calculate_realized_pnl pos.side pos.avg_price fill.price
            (min fill.quantity pos.quantity) (specOf fill.symbol).multiplier

/-! ### Operation sequences over the position manager -/

/-- One accounting operation driven by the engine: applying a fill or a
mark-to-market update. -/
inductive AccountingOp where
  | fillOp : Fill → AccountingOp
  | markOp : String → ℚ → AccountingOp

/-- Apply one accounting operation. -/
def applyOp (specOf : String → ContractSpec) (pm : PositionManager) :
    AccountingOp → PositionManager
  | AccountingOp.fillOp f => pm.apply_fill specOf f
  | AccountingOp.markOp sym price => pm.mark_to_market specOf sym price

/-- Apply a sequence of accounting operations. -/
def applyOps (specOf : String → ContractSpec) (pm : PositionManager)
    (ops : List AccountingOp) : PositionManager :=
  ops.foldl (applyOp specOf) pm

/-- The total commission and tax carried by the fills of a sequence. -/
def feesPaid : List AccountingOp → ℚ
  | [] => 0
  | AccountingOp.fillOp f :: rest => (f.commission + f.tax) + feesPaid rest
  | AccountingOp.markOp _ _ :: rest => feesPaid rest

/-! ### Concrete fixtures (TX contract: multiplier 200, tick 1,
initial margin 184000, maintenance margin 165000) -/

/-- The TX contract specification from `txf.core.constants`. -/
def txSpec : ContractSpec :=
  { multiplier := 200, tick_size := 1, initial_margin := 184000, maintenance_margin := 165000 }

/-- A contract registry resolving every symbol to the TX specification. -/
def specOfTX : String → ContractSpec := fun _ => txSpec

/-- The buy fill used in the C7 counterexample. -/
def fillC7 : Fill :=
  { order_id := "o1", symbol := "TX", side := Side.BUY, price := 20000,
    quantity := 1, commission := 60, tax := 80, timestamp := 1 }

/-- The operation sequence of the C7 counterexample: one opening fill, then a
mark-to-market at a higher price. -/
def opsC7 : List AccountingOp :=
  [AccountingOp.fillOp fillC7, AccountingOp.markOp "TX" 20100]

/-- The manager state of the C7 counterexample. -/
def pmC7 : PositionManager := applyOps specOfTX (mkPositionManager 1000000) opsC7

/-- The manager state used by the C4 and C10 witnesses: long 1 TX at 20000,
entered at bar 0, currently at bar 2. -/
def pmW : PositionManager :=
  { initial_capital := 1000000
    cash := 999860
    positions := [("TX",
      { symbol := "TX", side := Side.BUY, quantity := 3, avg_price := 20000,
        unrealized_pnl := 1200, margin_required := 552000 })]
    realized_pnl := 0
    trade_records := []
    equity_curve := []
    entry_bar_index := [("TX", 0)]
    current_bar_index := 2 }

/-- The TX position held in `pmW`. -/
def posW : Position :=
  { symbol := "TX", side := Side.BUY, quantity := 3, avg_price := 20000,
    unrealized_pnl := 1200, margin_required := 552000 }

/-- A SELL 5 fill against `pmW` (reverse: 5 > 3). -/
def fillW4 : Fill :=
  { order_id := "o4", symbol := "TX", side := Side.SELL, price := 20050,
    quantity := 5, commission := 300, tax := 400, timestamp := 9 }

/-- A SELL 2 fill against `pmW` (partial close: 2 < 3). -/
def fillW10 : Fill :=
  { order_id := "o10", symbol := "TX", side := Side.SELL, price := 20050,
    quantity := 2, commission := 120, tax := 160, timestamp := 9 }

/-- The matching engine used by the C3 witness (no pending orders needed for
the fill-price part; one pending copy for the queue part). -/
def mW3 : MatchingEngine :=
  { commission := { commission_per_contract := 60, tax_rate := 2 / 100000 }
    slippage_ticks := 1
    pending_orders := [{ id := "lim1", symbol := "TX", side := Side.BUY, quantity := 1,
                         price_type := PriceType.LIMIT, price := some 19950, timestamp := none }] }

/-- The pending BUY LIMIT 19950 order of the C3 witness. -/
def orderW3 : OrderRequest :=
  { id := "lim1", symbol := "TX", side := Side.BUY, quantity := 1,
    price_type := PriceType.LIMIT, price := some 19950, timestamp := none }

/-- The gap-down bar of the C3 witness (open 19900, high 19960, low 19880). -/
def barW3 : Bar :=
  { symbol := "TX", timestamp := 5, open_ := 19900, high := 19960, low := 19880, close := 19940 }

/-- The C5 claim's description of `StopEngine.on_bar`, following the
specification's words: the trailing extreme is updated first on every bar
(including a triggering bar), then the four stop conditions are evaluated in
the fixed order with the updated extreme, and any triggered stop yields the
single full-quantity MARKET close order (the four stops all emit that same
order, so the first-triggered order equals the any-triggered order). -/
def stopOnBarSpec (e : StopEngine) (bar : Bar) (pos : Position) (bars_held : ℕ) :
    Option OrderRequest × StopEngine :=
  let e1 := e.update_trailing bar pos
  let triggered := [e1.check_stop_loss bar pos, e1.check_take_profit bar pos,
                    e1.check_trailing_stop bar pos, e1.check_time_stop bars_held]
  (if triggered.any id then some (StopEngine.close_order bar.symbol pos) else none, e1)

/-- The stop engine of the C5 witness: trailing stop of 50 points with a
stored extreme of 20100 for TX. -/
def stopW5 : StopEngine :=
  { config := { trailing_stop_points := some 50 }
    trailing_extremes := [("TX", 20100)] }

/-- The long position of the C5 witness. -/
def posW5 : Position :=
  { symbol := "TX", side := Side.BUY, quantity := 1, avg_price := 20000 }

/-- The triggering bar of the C5 witness (low 20040 ≤ 20100 − 50). -/
def barW5 : Bar :=
  { symbol := "TX", timestamp := 4, open_ := 20070, high := 20080, low := 20040, close := 20045 }

/-- The commission model used by the concrete engine runs (defaults:
60 TWD per contract, tax rate 0.00002). -/
def commW : CommissionModel := { commission_per_contract := 60, tax_rate := 2 / 100000 }

/-- A fresh matching engine with slippage of one tick. -/
def matchingW : MatchingEngine :=
  { commission := commW, slippage_ticks := 1, pending_orders := [] }

/-- A fresh risk manager with the default risk settings. -/
def riskW : RiskManager :=
  { limit_checker := { max_position_contracts := 10, max_total_exposure_pct := 1 / 2 }
    pre_trade := { max_daily_loss := 100000, daily_realized_pnl := 0 }
    stop := { config := {}, trailing_extremes := [] }
    realtime := { max_drawdown_pct := 1 / 10, max_daily_loss := 100000,
                  peak_equity := 0, session_start_equity := 0, trading_halted := false }
    inited := false }

/-- A fresh engine state with capital 1000000. -/
def st0W : EngineState :=
  { matching := matchingW, pm := mkPositionManager 1000000, risk := riskW }

/-- The MARKET BUY 1 order submitted by the C1 witness strategy at bar 0. -/
def orderW1 : OrderRequest :=
  { id := "s1", symbol := "TX", side := Side.BUY, quantity := 1,
    price_type := PriceType.MARKET, price := none, timestamp := some 0 }

/-- The C1 witness strategy: submit `orderW1` during bar 0, nothing later. -/
def stratW : Strat := fun i _ _ => if i = 0 then [orderW1] else []

/-- The two bars of the C1 witness run. -/
def barsW : List Bar :=
  [ { symbol := "TX", timestamp := 0, open_ := 20000, high := 20050, low := 19990, close := 20010 },
    { symbol := "TX", timestamp := 1, open_ := 20020, high := 20120, low := 20000, close := 20100 } ]

/-- The fill that settles `orderW1` at bar 1 of the C1 witness run. -/
def fillW1 : Fill :=
  { order_id := "s1", symbol := "TX", side := Side.BUY, price := 20021,
    quantity := 1, commission := 60, tax := 20021 / 250, timestamp := 1 }

/-! ### C6: halt semantics -/

/-- The open long position of the C6 counterexample. -/
def posCx : Position :=
  { symbol := "TX", side := Side.BUY, quantity := 1, avg_price := 20000,
    unrealized_pnl := 90000, margin_required := 184000 }

/-- A halted risk manager whose monitor currently reports no warning: the
flag was set on an earlier bar, after which equity recovered (drawdown now
below the threshold and daily P&L positive). -/
def rmCx : RiskManager :=
  { limit_checker := { max_position_contracts := 10, max_total_exposure_pct := 1 / 2 }
    pre_trade := { max_daily_loss := 100000, daily_realized_pnl := 0 }
    stop := { config := {}, trailing_extremes := [] }
    realtime := { max_drawdown_pct := 1 / 10, max_daily_loss := 100000,
                  peak_equity := 1100000, session_start_equity := 1000000,
                  trading_halted := true }
    inited := true }

/-- A manager state holding the open position of the C6 counterexample
(total equity 1090000: less than 1% below peak). -/
def pmCx : PositionManager :=
  { initial_capital := 1000000
    cash := 1000000
    positions := [("TX", posCx)]
    realized_pnl := 0
    trade_records := []
    equity_curve := []
    entry_bar_index := [("TX", 0)]
    current_bar_index := 5 }

/-- The bar on which the C6 counterexample evaluates the risk manager. -/
def barCx : Bar :=
  { symbol := "TX", timestamp := 5, open_ := 20450, high := 20460, low := 20440, close := 20450 }

/-- A monitor that has not yet halted (peak equity 1000000). -/
def monW6 : RealtimeRiskMonitor :=
  { max_drawdown_pct := 1 / 10, max_daily_loss := 100000,
    peak_equity := 1000000, session_start_equity := 1000000, trading_halted := false }

/-- A portfolio snapshot with equity 890000 (11% below `monW6`'s peak). -/
def pW6d : PortfolioState :=
  { cash := 890000, positions := [], total_equity := 890000, used_margin := 0,
    available_margin := 890000, realized_pnl := 0, unrealized_pnl := 0 }

/-- Like `pmCx` but with equity 870000, so the halted monitor of `rmCx`
reports a drawdown warning (230000 / 1100000 ≥ 10%). -/
def pmF : PositionManager :=
  { pmCx with cash := 780000 }

/-! ### C8: trailing-state cleanup -/

/-- Risk manager with a trailing stop of 50 points and a stale stored
extreme of 20100 for TX, left over from a position that has closed. -/
def rm8 : RiskManager :=
  { limit_checker := { max_position_contracts := 10, max_total_exposure_pct := 1 / 2 }
    pre_trade := { max_daily_loss := 100000, daily_realized_pnl := 0 }
    stop := { config := { trailing_stop_points := some 50 }
              trailing_extremes := [("TX", 20100)] }
    realtime := { max_drawdown_pct := 1 / 10, max_daily_loss := 100000,
                  peak_equity := 1000000, session_start_equity := 1000000,
                  trading_halted := false }
    inited := true }

/-- Manager state right after the TX position closed (quantity 0). -/
def pm8flat : PositionManager :=
  { initial_capital := 1000000
    cash := 1000000
    positions := [("TX", { symbol := "TX", side := Side.BUY, quantity := 0, avg_price := 20000 })]
    realized_pnl := 0
    trade_records := []
    equity_curve := []
    entry_bar_index := [("TX", 0)]
    current_bar_index := 5 }

/-- The bar processed while flat. -/
def barClose8 : Bar :=
  { symbol := "TX", timestamp := 5, open_ := 20050, high := 20060, low := 20040, close := 20050 }

/-- The re-entry position: long 1 TX at 19000 entered on bar 5. -/
def pos8re : Position :=
  { symbol := "TX", side := Side.BUY, quantity := 1, avg_price := 19000,
    unrealized_pnl := 2000, margin_required := 184000 }

/-- Manager state after re-entry into TX. -/
def pm8re : PositionManager :=
  { initial_capital := 1000000
    cash := 998000
    positions := [("TX", pos8re)]
    realized_pnl := 0
    trade_records := []
    equity_curve := []
    entry_bar_index := [("TX", 5)]
    current_bar_index := 6 }

/-- The first bar after re-entry (high 19040, low 19010). -/
def barRe8 : Bar :=
  { symbol := "TX", timestamp := 6, open_ := 19020, high := 19040, low := 19010, close := 19010 }

/-- `rm8` with the trailing state cleared, as the claim requires after a
position close. -/
def rm8cleared : RiskManager :=
  { rm8 with stop := { config := { trailing_stop_points := some 50 }
                       trailing_extremes := [] } }

/-! ### C9: daily-loss ceiling -/

/-- MARKET BUY 1 submitted at bar 0 of the C9 run. -/
def o9buy : OrderRequest :=
  { id := "b1", symbol := "TX", side := Side.BUY, quantity := 1,
    price_type := PriceType.MARKET, price := none, timestamp := some 0 }

/-- MARKET SELL 2 submitted at bar 1 of the C9 run. -/
def o9sell : OrderRequest :=
  { id := "s2", symbol := "TX", side := Side.SELL, quantity := 2,
    price_type := PriceType.MARKET, price := none, timestamp := some 1 }

/-- MARKET BUY 1 submitted at bar 3 (the first bar of the next session). -/
def o9buy2 : OrderRequest :=
  { id := "b2", symbol := "TX", side := Side.BUY, quantity := 1,
    price_type := PriceType.MARKET, price := none, timestamp := some 100 }

/-- The C9 strategy: buy at bar 0, reverse at bar 1, try to buy again at
bar 3 (the next session). -/
def strat9 : Strat := fun i _ _ =>
  if i = 0 then [o9buy] else if i = 1 then [o9sell] else if i = 3 then [o9buy2] else []

/-- Bar 0 of the C9 run (first session). -/
def b9_0 : Bar :=
  { symbol := "TX", timestamp := 0, open_ := 20400, high := 20520, low := 20390, close := 20480 }

/-- Bar 1 of the C9 run (first session; the buy fills at 20500). -/
def b9_1 : Bar :=
  { symbol := "TX", timestamp := 1, open_ := 20499, high := 20510, low := 20400, close := 20450 }

/-- Bar 2 of the C9 run (first session; the reverse fill at 19999 realizes
−100200). -/
def b9_2 : Bar :=
  { symbol := "TX", timestamp := 2, open_ := 20000, high := 20010, low := 18990, close := 19000 }

/-- Bar 3 of the C9 run: the first bar of the following session
(timestamp 100); no fill and no realized P&L occur on it. -/
def b9_3 : Bar :=
  { symbol := "TX", timestamp := 100, open_ := 19000, high := 19010, low := 18990, close := 19000 }

/-- The C9 bars: one session (bars 0–2), then a bar of the next session. -/
def bars9 : List Bar := [b9_0, b9_1, b9_2, b9_3]

/-- The engine state at step 6 of bar 3 (after matching, mark-to-market and
risk, just before the strategy's order is checked). -/
def st9pre : EngineState :=
  (engineStepCore specOfTX 3 (stateBefore specOfTX strat9 st0W bars9 3) b9_3).1

/-- The risk-manager state during the C9 run (peak equity varies). -/
def rk9 (peak : ℚ) : RiskManager :=
  { limit_checker := { max_position_contracts := 10, max_total_exposure_pct := 1 / 2 }
    pre_trade := { max_daily_loss := 100000, daily_realized_pnl := 0 }
    stop := { config := {}, trailing_extremes := [] }
    realtime := { max_drawdown_pct := 1 / 10, max_daily_loss := 100000,
                  peak_equity := peak, session_start_equity := 1000000,
                  trading_halted := false }
    inited := true }

/-- The engine state entering bar 1 of the C9 run. -/
def st9lit1 : EngineState :=
  { matching := { commission := commW, slippage_ticks := 1, pending_orders := [o9buy] }
    pm := { initial_capital := 1000000, cash := 1000000, positions := []
            realized_pnl := 0, trade_records := [], equity_curve := [1000000]
            entry_bar_index := [], current_bar_index := 0 }
    risk := rk9 1000000 }

/-- The engine state entering bar 2 of the C9 run. -/
def st9lit2 : EngineState :=
  { matching := { commission := commW, slippage_ticks := 1, pending_orders := [o9sell] }
    pm := { initial_capital := 1000000, cash := 999858
            positions := [("TX",
              { symbol := "TX", side := Side.BUY, quantity := 1, avg_price := 20500,
                unrealized_pnl := -10000, margin_required := 184000 })]
            realized_pnl := 0, trade_records := []
            equity_curve := [1000000, 989858]
            entry_bar_index := [("TX", 1)], current_bar_index := 1 }
    risk := rk9 1000000 }

/-- The engine state entering bar 3 of the C9 run: the whole loss of the run
(−100200) has been realized inside the first session. -/
def st9lit3 : EngineState :=
  { matching := { commission := commW, slippage_ticks := 1, pending_orders := [] }
    pm := { initial_capital := 1000000, cash := 112422251 / 125
            positions := [("TX",
              { symbol := "TX", side := Side.SELL, quantity := 1, avg_price := 19999,
                unrealized_pnl := 199800, margin_required := 184000 })]
            realized_pnl := -100200
            trade_records := [
              { symbol := "TX", side := Side.BUY, entry_price := 20500, exit_price := 19999,
                quantity := 1, entry_time := 2, exit_time := 2, pnl := -100200,
                commission := 120, tax := 19999 / 125, bars_held := 1 }]
            equity_curve := [1000000, 989858, 137397251 / 125]
            entry_bar_index := [("TX", 2)], current_bar_index := 2 }
    risk := rk9 (137397251 / 125) }

/-! ### Theorems -/

/-- The two sides are distinct (used to evaluate side conditionals). -/
theorem Side.BUY_ne_SELL : ¬ (Side.BUY = Side.SELL) := by decide

/-- The two sides are distinct (used to evaluate side conditionals). -/
theorem Side.SELL_ne_BUY : ¬ (Side.SELL = Side.BUY) := by decide

/-! ### Association list lemmas -/

theorem lookupSym_insertSym_self {β : Type} (l : List (String × β)) (s : String) (v : β) :
    lookupSym (insertSym l s v) s = some v := by
  induction l with
  | nil => simp [insertSym, lookupSym]
  | cons kv rest ih =>
      by_cases h : kv.1 = s
      · simp [insertSym, lookupSym, h]
      · cases kv with
        | mk k w =>
            simp only at h
            simp [insertSym, lookupSym, h, ih]

theorem apply_fill_cash_realized_aux (specOf : String → ContractSpec)
    (pm : PositionManager) (fill : Fill) :
    (pm.apply_fill specOf fill).cash
        = pm.cash - (fill.commission + fill.tax) + closedSlicePnl specOf pm fill
    ∧ (pm.apply_fill specOf fill).realized_pnl
        = pm.realized_pnl + closedSlicePnl specOf pm fill
    ∧ (pm.apply_fill specOf fill).initial_capital = pm.initial_capital := by
  unfold PositionManager.apply_fill closedSlicePnl
  cases hl : lookupSym pm.positions fill.symbol with
  | none =>
      simp [PositionManager.open_position]
  | some pos =>
      by_cases hq : pos.quantity = 0
      · simp [hq, PositionManager.open_position]
      · by_cases hs : pos.side = fill.side
        · simp [hq, hs, PositionManager.add_to_position]
        · simp only [hq, hs, if_false, if_true, ite_false, ite_true]
          unfold PositionManager.reduce_or_reverse
          dsimp only
          split
          · dsimp only; constructor
            · ring
            · constructor
              · ring
              · rfl
          · split
            · dsimp only; constructor
              · ring
              · constructor
                · ring
                · rfl
            · split
              · dsimp only; constructor
                · ring
                · constructor
                  · ring
                  · rfl
              · dsimp only; constructor
                · ring
                · constructor
                  · ring
                  · rfl

theorem mark_to_market_cash_aux (specOf : String → ContractSpec)
    (pm : PositionManager) (sym : String) (price : ℚ) :
    (pm.mark_to_market specOf sym price).cash = pm.cash
    ∧ (pm.mark_to_market specOf sym price).realized_pnl = pm.realized_pnl
    ∧ (pm.mark_to_market specOf sym price).initial_capital = pm.initial_capital := by
  unfold PositionManager.mark_to_market
  cases hl : lookupSym pm.positions sym with
  | none => exact ⟨rfl, rfl, rfl⟩
  | some pos =>
      by_cases hq : pos.quantity = 0
      · simp [hq]
      · simp [hq]

theorem applyOps_cash_invariant (specOf : String → ContractSpec)
    (ops : List AccountingOp) (pm : PositionManager) :
    (applyOps specOf pm ops).cash - (applyOps specOf pm ops).realized_pnl
        = pm.cash - pm.realized_pnl - feesPaid ops
    ∧ (applyOps specOf pm ops).initial_capital = pm.initial_capital := by
  induction ops generalizing pm with
  | nil => simp [applyOps, feesPaid]
  | cons op rest ih =>
      cases op with
      | fillOp f =>
          have h := apply_fill_cash_realized_aux specOf pm f
          have hr := ih (pm.apply_fill specOf f)
          simp only [applyOps, List.foldl_cons, applyOp] at hr ⊢
          refine ⟨?_, ?_⟩
          · rw [hr.1, h.1, h.2.1, feesPaid]
            ring
          · rw [hr.2, h.2.2]
      | markOp sym price =>
          have h := mark_to_market_cash_aux specOf pm sym price
          have hr := ih (pm.mark_to_market specOf sym price)
          simp only [applyOps, List.foldl_cons, applyOp] at hr ⊢
          refine ⟨?_, ?_⟩
          · rw [hr.1, h.1, h.2.1, feesPaid]
          · rw [hr.2, h.2.2]

/-- Claim C2: for every fill processed by `PositionManager.apply_fill`, cash
decreases by exactly the fill's commission plus tax and, whenever a slice of
an existing position is closed (partial close, full close, or the closing leg
of a reverse), the realized P&L of that slice is added both to cash and to
the manager's `realized_pnl`, with no other change to cash. -/
theorem C2_per_fill_cash_accounting (specOf : String → ContractSpec)
    (pm : PositionManager) (fill : Fill) :
    (pm.apply_fill specOf fill).cash
        = pm.cash - (fill.commission + fill.tax) + closedSlicePnl specOf pm fill
    ∧ (pm.apply_fill specOf fill).realized_pnl
        = pm.realized_pnl + closedSlicePnl specOf pm fill :=
  ⟨(apply_fill_cash_realized_aux specOf pm fill).1,
   (apply_fill_cash_realized_aux specOf pm fill).2.1⟩

/-- Claim C7 as stated is false: after one fill and one mark-to-market
update, `initial_capital` differs from
`cash + Σ open unrealized P&L + total fees − realized P&L` (the open
position's unrealized P&L of 20000 breaks the identity). -/
theorem C7_accounting_identity_counterexample :
    ¬ (pmC7.initial_capital
        = pmC7.cash + pmC7.total_unrealized + feesPaid opsC7 - pmC7.realized_pnl) := by
  have h1 : pmC7.cash = 999860 := by
    norm_num [pmC7, opsC7, applyOps, applyOp, fillC7, PositionManager.apply_fill,
      mkPositionManager, lookupSym, PositionManager.open_position, insertSym,
      PositionManager.mark_to_market, specOfTX, txSpec, calculate_unrealized_pnl,
      calculate_margin_required]
  have h2 : pmC7.total_unrealized = 20000 := by
    norm_num [pmC7, opsC7, applyOps, applyOp, fillC7, PositionManager.apply_fill,
      mkPositionManager, lookupSym, PositionManager.open_position, insertSym,
      PositionManager.mark_to_market, specOfTX, txSpec, calculate_unrealized_pnl,
      calculate_margin_required, PositionManager.total_unrealized]
  have h3 : pmC7.realized_pnl = 0 := by
    norm_num [pmC7, opsC7, applyOps, applyOp, fillC7, PositionManager.apply_fill,
      mkPositionManager, lookupSym, PositionManager.open_position, insertSym,
      PositionManager.mark_to_market, specOfTX, txSpec, calculate_unrealized_pnl,
      calculate_margin_required]
  have h4 : pmC7.initial_capital = 1000000 := by
    norm_num [pmC7, opsC7, applyOps, applyOp, fillC7, PositionManager.apply_fill,
      mkPositionManager, lookupSym, PositionManager.open_position, insertSym,
      PositionManager.mark_to_market, specOfTX, txSpec, calculate_unrealized_pnl,
      calculate_margin_required]
  have h5 : feesPaid opsC7 = 140 := by
    norm_num [opsC7, feesPaid, fillC7]
  rw [h1, h2, h3, h4, h5]
  norm_num

/-- Claim C7 amended: after any sequence of fills and mark-to-market updates
starting from a fresh manager, `initial_capital` equals
`cash + total fees paid − realized P&L` (the unrealized term of the original
claim does not belong in the identity). -/
theorem C7_accounting_identity_amended (specOf : String → ContractSpec)
    (initial_capital : ℚ) (ops : List AccountingOp) :
    (applyOps specOf (mkPositionManager initial_capital) ops).initial_capital
      = (applyOps specOf (mkPositionManager initial_capital) ops).cash
        + feesPaid ops
        - (applyOps specOf (mkPositionManager initial_capital) ops).realized_pnl := by
  have h := applyOps_cash_invariant specOf ops (mkPositionManager initial_capital)
  have hc : (mkPositionManager initial_capital).cash = initial_capital := rfl
  have hr : (mkPositionManager initial_capital).realized_pnl = 0 := rfl
  have hi : (mkPositionManager initial_capital).initial_capital = initial_capital := rfl
  rw [hc, hr, hi] at h
  rw [h.2]
  have := h.1
  linarith

/-- Claim C4: a fill on the opposite side of an existing position with
`fill.quantity > position.quantity` closes the entire position (appending
exactly one trade record for the closed quantity), opens a new position on
the fill's side with the remainder quantity at the fill price, and restamps
`entry_bar_index` to the current bar index. -/
theorem C4_reverse_topology (specOf : String → ContractSpec) (pm : PositionManager)
    (fill : Fill) (pos : Position)
    (hpos : lookupSym pm.positions fill.symbol = some pos)
    (hq : pos.quantity ≠ 0)
    (hside : pos.side ≠ fill.side)
    (hgt : pos.quantity < fill.quantity) :
    lookupSym (pm.apply_fill specOf fill).positions fill.symbol
      = some { symbol := fill.symbol
               side := fill.side
               quantity := fill.quantity - pos.quantity
               avg_price := fill.price
               unrealized_pnl := 0
               margin_required := (specOf fill.symbol).initial_margin
                  * ((fill.quantity - pos.quantity : ℕ) : ℚ) }
    ∧ (pm.apply_fill specOf fill).trade_records
        = pm.trade_records ++
          [{ symbol := fill.symbol
             side := pos.side
             entry_price := pos.avg_price
             exit_price := fill.price
             quantity := pos.quantity
             entry_time := fill.timestamp
             exit_time := fill.timestamp
             pnl := calculate_realized_pnl pos.side pos.avg_price fill.price
                      pos.quantity (specOf fill.symbol).multiplier
             commission := fill.commission
             tax := fill.tax
             bars_held := pm.current_bar_index
                - (lookupSym pm.entry_bar_index fill.symbol).getD 0 }]
    ∧ lookupSym (pm.apply_fill specOf fill).entry_bar_index fill.symbol
        = some pm.current_bar_index := by
  have hmin : min fill.quantity pos.quantity = pos.quantity :=
    Nat.min_eq_right (Nat.le_of_lt hgt)
  have hrem : fill.quantity - pos.quantity ≠ 0 := Nat.sub_ne_zero_of_lt hgt
  have hrempos : 0 < fill.quantity - pos.quantity := Nat.sub_pos_of_lt hgt
  unfold PositionManager.apply_fill
  rw [hpos]
  simp only [hq, hside, ite_false, if_false]
  unfold PositionManager.reduce_or_reverse
  simp only [hmin, Nat.sub_self, hrem, and_false, lt_irrefl, ite_false, if_false,
    hrempos, ite_true, if_true, lookupSym_insertSym_self, and_self, and_true, true_and]

/-- Witness for C4 at a concrete reverse fill. -/
theorem C4_reverse_topology_witness :
    lookupSym (pmW.apply_fill specOfTX fillW4).positions fillW4.symbol
      = some { symbol := fillW4.symbol
               side := fillW4.side
               quantity := fillW4.quantity - posW.quantity
               avg_price := fillW4.price
               unrealized_pnl := 0
               margin_required := (specOfTX fillW4.symbol).initial_margin
                  * ((fillW4.quantity - posW.quantity : ℕ) : ℚ) }
    ∧ (pmW.apply_fill specOfTX fillW4).trade_records
        = pmW.trade_records ++
          [{ symbol := fillW4.symbol
             side := posW.side
             entry_price := posW.avg_price
             exit_price := fillW4.price
             quantity := posW.quantity
             entry_time := fillW4.timestamp
             exit_time := fillW4.timestamp
             pnl := calculate_realized_pnl posW.side posW.avg_price fillW4.price
                      posW.quantity (specOfTX fillW4.symbol).multiplier
             commission := fillW4.commission
             tax := fillW4.tax
             bars_held := pmW.current_bar_index
                - (lookupSym pmW.entry_bar_index fillW4.symbol).getD 0 }]
    ∧ lookupSym (pmW.apply_fill specOfTX fillW4).entry_bar_index fillW4.symbol
        = some pmW.current_bar_index :=
  C4_reverse_topology specOfTX pmW fillW4 posW rfl (by decide) (by decide) (by decide)

/-- Claim C10: a fill on the opposite side of an existing position with
`fill.quantity < position.quantity` changes only the position's `quantity`
(reduced by the fill quantity) and `margin_required` (initial margin times
the new quantity); `side`, `avg_price` and `unrealized_pnl` keep their
previous values until the next `mark_to_market`. -/
theorem C10_partial_close_frame (specOf : String → ContractSpec) (pm : PositionManager)
    (fill : Fill) (pos : Position)
    (hpos : lookupSym pm.positions fill.symbol = some pos)
    (hq : pos.quantity ≠ 0)
    (hside : pos.side ≠ fill.side)
    (hlt : fill.quantity < pos.quantity) :
    lookupSym (pm.apply_fill specOf fill).positions fill.symbol
      = some { pos with
               quantity := pos.quantity - fill.quantity
               margin_required := (specOf fill.symbol).initial_margin
                  * ((pos.quantity - fill.quantity : ℕ) : ℚ) } := by
  have hmin : min fill.quantity pos.quantity = fill.quantity :=
    Nat.min_eq_left (Nat.le_of_lt hlt)
  have hnewpos : 0 < pos.quantity - fill.quantity := Nat.sub_pos_of_lt hlt
  have hnew : pos.quantity - fill.quantity ≠ 0 := Nat.sub_ne_zero_of_lt hlt
  unfold PositionManager.apply_fill
  rw [hpos]
  simp only [hq, hside, ite_false, if_false]
  unfold PositionManager.reduce_or_reverse
  simp only [hmin, hnew, false_and, and_false, ite_false, if_false, hnewpos,
    ite_true, if_true, lookupSym_insertSym_self]

/-- Witness for C10 at a concrete partial-close fill. -/
theorem C10_partial_close_frame_witness :
    lookupSym (pmW.apply_fill specOfTX fillW10).positions fillW10.symbol
      = some { posW with
               quantity := posW.quantity - fillW10.quantity
               margin_required := (specOfTX fillW10.symbol).initial_margin
                  * ((posW.quantity - fillW10.quantity : ℕ) : ℚ) } :=
  C10_partial_close_frame specOfTX pmW fillW10 posW rfl (by decide) (by decide) (by decide)

/-- An order that does not fill on a bar stays in the queue output of the
scan inside `MatchingEngine.on_bar`. -/
theorem matchScan_keeps_unfilled (specOf : String → ContractSpec) (m : MatchingEngine)
    (bar : Bar) (order : OrderRequest) (q : List OrderRequest)
    (hmem : order ∈ q) (hnf : m.try_fill specOf order bar = none) :
    order ∈ (matchScan specOf m bar q).2 := by
  induction q with
  | nil => cases hmem
  | cons o rest ih =>
      unfold matchScan
      rcases List.mem_cons.mp hmem with rfl | htail
      · by_cases hsym : order.symbol = bar.symbol
        · simp only [hsym, ite_true, if_true, hnf]
          exact List.mem_cons_self _ _
        · simp only [hsym, ite_false, if_false]
          exact List.mem_cons_self _ _
      · by_cases hsym : o.symbol = bar.symbol
        · simp only [hsym, ite_true, if_true]
          cases hf : m.try_fill specOf o bar with
          | some fill => exact ih htail
          | none => exact List.mem_cons_of_mem _ (ih htail)
        · simp only [hsym, ite_false, if_false]
          exact List.mem_cons_of_mem _ (ih htail)

/-- Claim C3: a pending LIMIT order whose symbol matches the bar fills, for a
BUY, exactly when `bar.low ≤ limit` at price `min(limit, bar.open)` and, for
a SELL, exactly when `bar.high ≥ limit` at price `max(limit, bar.open)`;
otherwise it remains queued unchanged by `on_bar`. -/
theorem C3_limit_fill_rule (specOf : String → ContractSpec) (m : MatchingEngine)
    (bar : Bar) (order : OrderRequest) (limit : ℚ)
    (htype : order.price_type = PriceType.LIMIT)
    (hprice : order.price = some limit) :
    (order.side = Side.BUY →
      m.try_fill specOf order bar
        = if bar.low ≤ limit then
            some (m.create_fill specOf order (min limit bar.open_) bar.timestamp)
          else none)
    ∧ (order.side = Side.SELL →
      m.try_fill specOf order bar
        = if bar.high ≥ limit then
            some (m.create_fill specOf order (max limit bar.open_) bar.timestamp)
          else none)
    ∧ (m.try_fill specOf order bar = none → order ∈ m.pending_orders →
        order ∈ ((m.on_bar specOf bar).2).pending_orders) := by
  refine ⟨?_, ?_, ?_⟩
  · intro hside
    unfold MatchingEngine.try_fill
    rw [htype, hprice, hside]
  · intro hside
    unfold MatchingEngine.try_fill
    rw [htype, hprice, hside]
  · intro hnf hmem
    unfold MatchingEngine.on_bar
    exact matchScan_keeps_unfilled specOf m bar order m.pending_orders hmem hnf

/-- Witness for C3 at the gap-down scenario of the specification (fill at
`min(19950, 19900)`). -/
theorem C3_limit_fill_rule_witness :
    (orderW3.side = Side.BUY →
      mW3.try_fill specOfTX orderW3 barW3
        = if barW3.low ≤ 19950 then
            some (mW3.create_fill specOfTX orderW3 (min 19950 barW3.open_) barW3.timestamp)
          else none)
    ∧ (orderW3.side = Side.SELL →
      mW3.try_fill specOfTX orderW3 barW3
        = if barW3.high ≥ 19950 then
            some (mW3.create_fill specOfTX orderW3 (max 19950 barW3.open_) barW3.timestamp)
          else none)
    ∧ (mW3.try_fill specOfTX orderW3 barW3 = none → orderW3 ∈ mW3.pending_orders →
        orderW3 ∈ ((mW3.on_bar specOfTX barW3).2).pending_orders) :=
  C3_limit_fill_rule specOfTX mW3 barW3 orderW3 19950 rfl rfl

/-- Claim C5: on every bar with an open position the stop engine updates the
trailing extreme first (including on the triggering bar), evaluates
stop-loss, take-profit, trailing and time stops in that fixed order against
the updated extreme, emits exactly one full-quantity opposite-side MARKET
order when some stop triggers and nothing otherwise. -/
theorem C5_stop_evaluation_order (e : StopEngine) (bar : Bar) (pos : Position)
    (bars_held : ℕ) (hq : pos.quantity ≠ 0) :
    e.on_bar bar (some pos) bars_held = stopOnBarSpec e bar pos bars_held
    ∧ (∀ o : OrderRequest, (e.on_bar bar (some pos) bars_held).1 = some o →
        o.price_type = PriceType.MARKET ∧ o.side = pos.side.opposite
        ∧ o.quantity = pos.quantity) := by
  constructor
  · unfold StopEngine.on_bar stopOnBarSpec
    simp only [hq, ite_false, if_false]
    cases h1 : (e.update_trailing bar pos).check_stop_loss bar pos with
    | true => simp [h1]
    | false =>
        cases h2 : (e.update_trailing bar pos).check_take_profit bar pos with
        | true => simp [h1, h2]
        | false =>
            cases h3 : (e.update_trailing bar pos).check_trailing_stop bar pos with
            | true => simp [h1, h2, h3]
            | false =>
                cases h4 : (e.update_trailing bar pos).check_time_stop bars_held with
                | true => simp [h1, h2, h3, h4]
                | false => simp [h1, h2, h3, h4]
  · intro o ho
    unfold StopEngine.on_bar at ho
    simp only [hq, ite_false, if_false] at ho
    have : o = StopEngine.close_order bar.symbol pos := by
      by_cases h1 : ((e.update_trailing bar pos).check_stop_loss bar pos) = true
      · simp [h1] at ho; exact ho.symm
      · by_cases h2 : ((e.update_trailing bar pos).check_take_profit bar pos) = true
        · simp [h1, h2] at ho; exact ho.symm
        · by_cases h3 : ((e.update_trailing bar pos).check_trailing_stop bar pos) = true
          · simp [h1, h2, h3] at ho; exact ho.symm
          · by_cases h4 : ((e.update_trailing bar pos).check_time_stop bars_held) = true
            · simp [h1, h2, h3, h4] at ho; exact ho.symm
            · simp [h1, h2, h3, h4] at ho
    subst this
    exact ⟨rfl, rfl, rfl⟩

/-- Witness for C5 at the trailing-stop scenario S6 of the specification. -/
theorem C5_stop_evaluation_order_witness :
    stopW5.on_bar barW5 (some posW5) 4 = stopOnBarSpec stopW5 barW5 posW5 4
    ∧ (∀ o : OrderRequest, (stopW5.on_bar barW5 (some posW5) 4).1 = some o →
        o.price_type = PriceType.MARKET ∧ o.side = posW5.side.opposite
        ∧ o.quantity = posW5.quantity) :=
  C5_stop_evaluation_order stopW5 barW5 posW5 4 (by decide)

/-! ### Look-ahead barrier machinery -/

theorem try_fill_order_id (specOf : String → ContractSpec) (m : MatchingEngine)
    (o : OrderRequest) (bar : Bar) (f : Fill)
    (h : m.try_fill specOf o bar = some f) : f.order_id = o.id := by
  unfold MatchingEngine.try_fill at h
  cases htype : o.price_type with
  | MARKET =>
      rw [htype] at h
      cases hside : o.side <;> rw [hside] at h <;> dsimp only at h <;>
        (injection h with h2; rw [← h2]; rfl)
  | LIMIT =>
      rw [htype] at h
      cases hp : o.price with
      | none => rw [hp] at h; dsimp only at h; cases h
      | some limit =>
          rw [hp] at h
          cases hside : o.side <;> rw [hside] at h <;> dsimp only at h
          · split at h
            · injection h with h2; rw [← h2]; rfl
            · cases h
          · split at h
            · injection h with h2; rw [← h2]; rfl
            · cases h

theorem matchScan_fill_from_queue (specOf : String → ContractSpec) (m : MatchingEngine)
    (bar : Bar) (q : List OrderRequest) (f : Fill)
    (hf : f ∈ (matchScan specOf m bar q).1) :
    ∃ o ∈ q, f.order_id = o.id := by
  induction q with
  | nil => cases hf
  | cons o rest ih =>
      unfold matchScan at hf
      by_cases hsym : o.symbol = bar.symbol
      · simp only [hsym, ite_true, if_true] at hf
        cases htf : m.try_fill specOf o bar with
        | some fill =>
            rw [htf] at hf
            rcases List.mem_cons.mp hf with rfl | htail
            · exact ⟨o, List.mem_cons_self _ _, try_fill_order_id specOf m o bar f htf⟩
            · rcases ih htail with ⟨o', ho', hid⟩
              exact ⟨o', List.mem_cons_of_mem _ ho', hid⟩
        | none =>
            rw [htf] at hf
            rcases ih hf with ⟨o', ho', hid⟩
            exact ⟨o', List.mem_cons_of_mem _ ho', hid⟩
      · simp only [hsym, ite_false, if_false] at hf
        rcases ih hf with ⟨o', ho', hid⟩
        exact ⟨o', List.mem_cons_of_mem _ ho', hid⟩

theorem matchScan_remaining_subset (specOf : String → ContractSpec) (m : MatchingEngine)
    (bar : Bar) (q : List OrderRequest) (o : OrderRequest)
    (ho : o ∈ (matchScan specOf m bar q).2) : o ∈ q := by
  induction q with
  | nil => cases ho
  | cons o' rest ih =>
      unfold matchScan at ho
      by_cases hsym : o'.symbol = bar.symbol
      · simp only [hsym, ite_true, if_true] at ho
        cases htf : m.try_fill specOf o' bar with
        | some fill =>
            rw [htf] at ho
            exact List.mem_cons_of_mem _ (ih ho)
        | none =>
            rw [htf] at ho
            rcases List.mem_cons.mp ho with rfl | htail
            · exact List.mem_cons_self _ _
            · exact List.mem_cons_of_mem _ (ih htail)
      · simp only [hsym, ite_false, if_false] at ho
        rcases List.mem_cons.mp ho with rfl | htail
        · exact List.mem_cons_self _ _
        · exact List.mem_cons_of_mem _ (ih htail)

theorem foldl_submit_pending (orders : List OrderRequest) (m : MatchingEngine) :
    (orders.foldl MatchingEngine.submit_order m).pending_orders
      = m.pending_orders ++ orders := by
  induction orders generalizing m with
  | nil => simp
  | cons o rest ih =>
      simp only [List.foldl_cons, ih, MatchingEngine.submit_order]
      simp

theorem submitStrategyOrders_queue (specOf : String → ContractSpec)
    (os : List OrderRequest) (st : EngineState) (o : OrderRequest)
    (ho : o ∈ (submitStrategyOrders specOf st os).1.matching.pending_orders) :
    o ∈ st.matching.pending_orders ∨ o ∈ (submitStrategyOrders specOf st os).2 := by
  induction os generalizing st with
  | nil =>
      unfold submitStrategyOrders at ho
      exact Or.inl ho
  | cons o' rest ih =>
      unfold submitStrategyOrders at ho ⊢
      dsimp only at ho ⊢
      cases hc : (RiskManager.check_pre_trade specOf st.risk st.pm o').1 with
      | some r =>
          rw [hc] at ho
          dsimp only at ho ⊢
          rcases ih _ ho with h | h
          · exact Or.inl h
          · exact Or.inr h
      | none =>
          rw [hc] at ho
          dsimp only at ho ⊢
          rcases ih _ ho with h | h
          · simp only [MatchingEngine.submit_order] at h
            rcases List.mem_append.mp h with h' | h'
            · exact Or.inl h'
            · rcases List.mem_singleton.mp h' with rfl
              exact Or.inr (List.mem_cons_self _ _)
          · exact Or.inr (List.mem_cons_of_mem _ h)

theorem engineStep_fills_from_queue (specOf : String → ContractSpec) (strat : Strat)
    (i : ℕ) (st : EngineState) (bar : Bar) (f : Fill)
    (hf : f ∈ (engineStep specOf strat i st bar).2.1) :
    ∃ o ∈ st.matching.pending_orders, f.order_id = o.id := by
  unfold engineStep engineStepCore at hf
  dsimp only at hf
  exact matchScan_fill_from_queue specOf st.matching bar st.matching.pending_orders f hf

theorem engineStep_queue (specOf : String → ContractSpec) (strat : Strat)
    (i : ℕ) (st : EngineState) (bar : Bar) (o : OrderRequest)
    (ho : o ∈ (engineStep specOf strat i st bar).1.matching.pending_orders) :
    o ∈ st.matching.pending_orders ∨ o ∈ (engineStep specOf strat i st bar).2.2 := by
  unfold engineStep at ho ⊢
  dsimp only at ho ⊢
  rcases submitStrategyOrders_queue specOf _ _ o ho with h | h
  · unfold engineStepCore at h
    dsimp only at h
    rw [foldl_submit_pending] at h
    rcases List.mem_append.mp h with h' | h'
    · exact Or.inl (matchScan_remaining_subset specOf st.matching bar
        st.matching.pending_orders o h')
    · exact Or.inr (List.mem_append.mpr (Or.inl h'))
  · exact Or.inr (List.mem_append.mpr (Or.inr h))

theorem runFrom_append (specOf : String → ContractSpec) (strat : Strat)
    (l1 l2 : List Bar) (i : ℕ) (st : EngineState) :
    runFrom specOf strat i st (l1 ++ l2)
      = runFrom specOf strat (i + l1.length) (runFrom specOf strat i st l1) l2 := by
  induction l1 generalizing i st with
  | nil => simp [runFrom]
  | cons bar rest ih =>
      simp only [List.cons_append, runFrom, List.length_cons, List.append_eq]
      rw [ih]
      congr 1
      omega

theorem stateBefore_succ_of_get (specOf : String → ContractSpec) (strat : Strat)
    (st0 : EngineState) (bars : List Bar) (i : ℕ) (bar : Bar)
    (hget : bars.get? i = some bar) :
    stateBefore specOf strat st0 bars (i + 1)
      = (engineStep specOf strat i (stateBefore specOf strat st0 bars i) bar).1 := by
  have hlen : i < bars.length := List.get?_eq_some.mp hget |>.1
  have htake : bars.take (i + 1) = bars.take i ++ [bar] := by
    rw [List.take_succ, ← List.get?_eq_getElem?, hget]
    rfl
  have hlt : (bars.take i).length = i := by
    rw [List.length_take]
    omega
  unfold stateBefore
  rw [htake, runFrom_append, hlt]
  simp [runFrom]

theorem stateBefore_succ_of_none (specOf : String → ContractSpec) (strat : Strat)
    (st0 : EngineState) (bars : List Bar) (i : ℕ)
    (hget : bars.get? i = none) :
    stateBefore specOf strat st0 bars (i + 1) = stateBefore specOf strat st0 bars i := by
  have hlen : bars.length ≤ i := List.get?_eq_none.mp hget
  unfold stateBefore
  rw [List.take_of_length_le (by omega), List.take_of_length_le (by omega)]

theorem queue_invariant (specOf : String → ContractSpec) (strat : Strat)
    (st0 : EngineState) (bars : List Bar)
    (h0 : st0.matching.pending_orders = []) (i : ℕ) :
    ∀ o ∈ (stateBefore specOf strat st0 bars i).matching.pending_orders,
      ∃ j, j < i ∧ o ∈ submittedAt specOf strat st0 bars j := by
  induction i with
  | zero =>
      intro o ho
      have : stateBefore specOf strat st0 bars 0 = st0 := rfl
      rw [this, h0] at ho
      cases ho
  | succ i ih =>
      intro o ho
      cases hget : bars.get? i with
      | none =>
          rw [stateBefore_succ_of_none specOf strat st0 bars i hget] at ho
          rcases ih o ho with ⟨j, hj, hsub⟩
          exact ⟨j, Nat.lt_succ_of_lt hj, hsub⟩
      | some bar =>
          rw [stateBefore_succ_of_get specOf strat st0 bars i bar hget] at ho
          rcases engineStep_queue specOf strat i _ bar o ho with h | h
          · rcases ih o h with ⟨j, hj, hsub⟩
            exact ⟨j, Nat.lt_succ_of_lt hj, hsub⟩
          · refine ⟨i, Nat.lt_succ_self i, ?_⟩
            unfold submittedAt
            rw [hget]
            exact h

/-- Claim C1: look-ahead barrier. In every run of the engine loop starting
with an empty matching queue, every fill produced at bar `i`'s matching step
settles an order submitted during some earlier bar `j < i` (by the risk step
or the strategy callback of bar `j`). In particular no order submitted during
bar `i` — market orders included — is filled by bar `i`'s own
`matching.on_bar`. -/
theorem C1_lookahead_barrier (specOf : String → ContractSpec) (strat : Strat)
    (st0 : EngineState) (bars : List Bar)
    (h0 : st0.matching.pending_orders = []) (i : ℕ) (f : Fill)
    (hf : f ∈ fillsAt specOf strat st0 bars i) :
    ∃ j, j < i ∧ ∃ o ∈ submittedAt specOf strat st0 bars j, f.order_id = o.id := by
  unfold fillsAt at hf
  cases hget : bars.get? i with
  | none => rw [hget] at hf; cases hf
  | some bar =>
      rw [hget] at hf
      rcases engineStep_fills_from_queue specOf strat i _ bar f hf with ⟨o, ho, hid⟩
      rcases queue_invariant specOf strat st0 bars h0 i o ho with ⟨j, hj, hsub⟩
      exact ⟨j, hj, o, hsub, hid⟩

/-- Witness for C1: in the concrete two-bar run, the fill produced at bar 1
settles an order submitted at some bar before bar 1. -/
theorem C1_lookahead_barrier_witness :
    ∃ j, j < 1 ∧ ∃ o ∈ submittedAt specOfTX stratW st0W barsW j, fillW1.order_id = o.id := by
  have hf : fillsAt specOfTX stratW st0W barsW 1 = [fillW1] := by
    norm_num [fillsAt, stateBefore, runFrom, engineStep, engineStepCore,
      submitStrategyOrders, MatchingEngine.on_bar, matchScan, MatchingEngine.try_fill,
      MatchingEngine.create_fill, MatchingEngine.submit_order, calculate_notional_value,
      CommissionModel.calculate_commission, CommissionModel.calculate_tax,
      PositionManager.apply_fill, PositionManager.open_position,
      PositionManager.mark_to_market, PositionManager.set_bar_index,
      PositionManager.snapshot_equity, PositionManager.total_equity,
      PositionManager.total_unrealized, PositionManager.used_margin_total,
      PositionManager.get_portfolio_state, calculate_unrealized_pnl,
      calculate_margin_required, RiskManager.on_bar, RiskManager.check_pre_trade,
      RealtimeRiskMonitor.update, RealtimeRiskMonitor.initEquity,
      RealtimeRiskMonitor.should_force_close, stopScan,
      PreTradeRiskCheck.check, PreTradeRiskCheck.check_margin,
      PreTradeRiskCheck.check_daily_loss, PreTradeRiskCheck.update_daily_pnl,
      LimitChecker.check_position_limit, Side.BUY_ne_SELL, Side.SELL_ne_BUY,
      lookupSym, insertSym, removeSym,
      mkPositionManager, specOfTX, txSpec, commW, matchingW, riskW, st0W,
      orderW1, stratW, barsW, fillW1]
  exact C1_lookahead_barrier specOfTX stratW st0W barsW rfl 1 fillW1
    (hf ▸ List.mem_singleton.mpr rfl)

/-- Claim C6 as stated is false: with `trading_halted` set and an open
position, `RiskManager.on_bar` returns no close order at all when the
monitor's update currently reports no warning (the force-close branch is
guarded by `if warnings`, not by the halt flag). -/
theorem C6_halt_semantics_counterexample :
    rmCx.realtime.trading_halted = true
    ∧ pmCx.get_portfolio_state.positions = [("TX", posCx)]
    ∧ (RiskManager.on_bar specOfTX rmCx pmCx barCx).1 = [] := by
  refine ⟨rfl, ?_, ?_⟩
  · norm_num [PositionManager.get_portfolio_state, pmCx, posCx,
      PositionManager.total_equity, PositionManager.total_unrealized,
      PositionManager.used_margin_total]
  · norm_num [RiskManager.on_bar, rmCx, pmCx, posCx, barCx,
      PositionManager.get_portfolio_state, PositionManager.total_equity,
      PositionManager.total_unrealized, PositionManager.used_margin_total,
      RealtimeRiskMonitor.update, RealtimeRiskMonitor.should_force_close,
      stopScan, StopEngine.on_bar, StopEngine.update_trailing,
      StopEngine.check_stop_loss, StopEngine.check_take_profit,
      StopEngine.check_trailing_stop, StopEngine.check_time_stop,
      lookupSym, removeSym]

/-- Claim C6 amended: the halt flag is sticky under `update` (only
`reset_session` clears it); the update that first sets the flag always
reports a warning; while halted every pre-trade check returns a reason
containing "halted"; and on every bar where the monitor's update reports a
warning while halted — in particular on the halt-triggering bar — the risk
manager returns a MARKET close order (opposite side, full quantity) for
every open position and skips the stop engine. -/
theorem C6_halt_semantics_amended (specOf : String → ContractSpec)
    (mon : RealtimeRiskMonitor) (p : PortfolioState)
    (rm : RiskManager) (pm : PositionManager) (bar : Bar) (order : OrderRequest) :
    (mon.trading_halted = true → ((mon.update p).2).trading_halted = true)
    ∧ (mon.trading_halted = false → ((mon.update p).2).trading_halted = true →
        (mon.update p).1 ≠ [])
    ∧ (rm.realtime.trading_halted = true →
        ∃ s, (RiskManager.check_pre_trade specOf rm pm order).1 = some s
          ∧ "halted".data <:+: s.data)
    ∧ (rm.inited = true →
        (rm.realtime.update pm.get_portfolio_state).1 ≠ [] →
        ((rm.realtime.update pm.get_portfolio_state).2).trading_halted = true →
        (RiskManager.on_bar specOf rm pm bar).1
            = pm.get_portfolio_state.positions.map (fun kv => riskCloseOrder kv.1 kv.2)
          ∧ ((RiskManager.on_bar specOf rm pm bar).2).stop = rm.stop) := by
  refine ⟨?_, ?_, ?_, ?_⟩
  · intro h
    unfold RealtimeRiskMonitor.update
    dsimp only
    split_ifs <;> simp_all
  · intro h0 h1
    unfold RealtimeRiskMonitor.update at h1 ⊢
    dsimp only at h1 ⊢
    split_ifs at h1 ⊢ <;> simp_all
  · intro h
    unfold RiskManager.check_pre_trade
    rw [h]
    exact ⟨_, rfl, by decide⟩
  · intro hi h1 h2
    unfold RiskManager.on_bar
    rw [hi]
    dsimp only
    rw [if_pos]
    · exact ⟨rfl, rfl⟩
    · refine ⟨h1, ?_⟩
      simpa [RealtimeRiskMonitor.should_force_close] using h2

/-- Witness for the amended C6 at concrete states: stickiness of the flag,
a non-empty warning list on a halting update, the "halted" rejection reason,
and the forced close orders on a warned-and-halted bar. -/
theorem C6_halt_semantics_amended_witness :
    ((rmCx.realtime.update pmCx.get_portfolio_state).2).trading_halted = true
    ∧ (monW6.update pW6d).1 ≠ []
    ∧ (∃ s, (RiskManager.check_pre_trade specOfTX rmCx pmCx orderW1).1 = some s
          ∧ "halted".data <:+: s.data)
    ∧ ((RiskManager.on_bar specOfTX rmCx pmF barCx).1
          = pmF.get_portfolio_state.positions.map (fun kv => riskCloseOrder kv.1 kv.2)
        ∧ ((RiskManager.on_bar specOfTX rmCx pmF barCx).2).stop = rmCx.stop) := by
  obtain ⟨h1, -, h3, -⟩ := C6_halt_semantics_amended specOfTX rmCx.realtime
    pmCx.get_portfolio_state rmCx pmCx barCx orderW1
  obtain ⟨-, h2, -, -⟩ := C6_halt_semantics_amended specOfTX monW6 pW6d rmCx pmCx barCx orderW1
  obtain ⟨-, -, -, h4⟩ := C6_halt_semantics_amended specOfTX monW6 pW6d rmCx pmF barCx orderW1
  refine ⟨h1 rfl, h2 rfl ?_, h3 rfl, h4 rfl ?_ ?_⟩
  · norm_num [RealtimeRiskMonitor.update, monW6, pW6d]
  · norm_num [RealtimeRiskMonitor.update, rmCx, pmF, pmCx, posCx,
      PositionManager.get_portfolio_state, PositionManager.total_equity,
      PositionManager.total_unrealized, PositionManager.used_margin_total]
    exact List.cons_ne_nil _ _
  · norm_num [RealtimeRiskMonitor.update, rmCx, pmF, pmCx, posCx,
      PositionManager.get_portfolio_state, PositionManager.total_equity,
      PositionManager.total_unrealized, PositionManager.used_margin_total]

/-- Claim C8 fails on the code: `RiskManager.on_bar` only consults the stop
engine for open positions, so processing a bar with the TX position closed
leaves the stale extreme 20100 in place; on the re-entry bar the stale
extreme emits a spurious trailing-stop close order (19010 ≤ 20100 − 50),
whereas the cleared state required by the claim emits none. -/
theorem C8_trailing_cleanup_code_bug :
    ((RiskManager.on_bar specOfTX rm8 pm8flat barClose8).2).stop.trailing_extremes
        = [("TX", 20100)]
    ∧ (RiskManager.on_bar specOfTX
          ((RiskManager.on_bar specOfTX rm8 pm8flat barClose8).2) pm8re barRe8).1
        = [StopEngine.close_order "TX" pos8re]
    ∧ (RiskManager.on_bar specOfTX rm8cleared pm8re barRe8).1 = [] := by
  refine ⟨?_, ?_, ?_⟩ <;>
    norm_num [RiskManager.on_bar, rm8, rm8cleared, pm8flat, pm8re, pos8re,
      barClose8, barRe8, PositionManager.get_portfolio_state,
      PositionManager.total_equity, PositionManager.total_unrealized,
      PositionManager.used_margin_total, RealtimeRiskMonitor.update,
      RealtimeRiskMonitor.should_force_close, stopScan, StopEngine.on_bar,
      StopEngine.update_trailing, StopEngine.check_stop_loss,
      StopEngine.check_take_profit, StopEngine.check_trailing_stop,
      StopEngine.check_time_stop, StopEngine.close_order, Position.is_long,
      lookupSym, insertSym, removeSym]

theorem st9eval1 : stateBefore specOfTX strat9 st0W bars9 1 = st9lit1 := by
  norm_num [stateBefore, runFrom, engineStep, engineStepCore,
    submitStrategyOrders, MatchingEngine.on_bar, matchScan, MatchingEngine.try_fill,
    MatchingEngine.create_fill, MatchingEngine.submit_order, calculate_notional_value,
    CommissionModel.calculate_commission, CommissionModel.calculate_tax,
    PositionManager.apply_fill, PositionManager.open_position,
    PositionManager.add_to_position, PositionManager.reduce_or_reverse,
    calculate_realized_pnl, PositionManager.mark_to_market,
    PositionManager.set_bar_index, PositionManager.snapshot_equity,
    PositionManager.total_equity, PositionManager.total_unrealized,
    PositionManager.used_margin_total, PositionManager.get_portfolio_state,
    calculate_unrealized_pnl, calculate_margin_required,
    RiskManager.on_bar, RiskManager.check_pre_trade,
    RealtimeRiskMonitor.update, RealtimeRiskMonitor.initEquity,
    RealtimeRiskMonitor.should_force_close, stopScan, StopEngine.on_bar,
    StopEngine.update_trailing, StopEngine.check_stop_loss,
    StopEngine.check_take_profit, StopEngine.check_trailing_stop,
    StopEngine.check_time_stop, Position.is_long,
    PreTradeRiskCheck.check, PreTradeRiskCheck.check_margin,
    PreTradeRiskCheck.check_daily_loss, PreTradeRiskCheck.update_daily_pnl,
    LimitChecker.check_position_limit, Side.BUY_ne_SELL, Side.SELL_ne_BUY,
      lookupSym, insertSym, removeSym,
    mkPositionManager, specOfTX, txSpec, commW, matchingW, riskW, st0W,
    o9buy, o9sell, o9buy2, strat9, bars9, b9_0, b9_1, b9_2, b9_3,
    st9lit1, rk9]

theorem st9eval2 : stateBefore specOfTX strat9 st0W bars9 2 = st9lit2 := by
  rw [show (2 : ℕ) = 1 + 1 from rfl,
    stateBefore_succ_of_get specOfTX strat9 st0W bars9 1 b9_1 rfl, st9eval1]
  norm_num [engineStep, engineStepCore,
    submitStrategyOrders, MatchingEngine.on_bar, matchScan, MatchingEngine.try_fill,
    MatchingEngine.create_fill, MatchingEngine.submit_order, calculate_notional_value,
    CommissionModel.calculate_commission, CommissionModel.calculate_tax,
    PositionManager.apply_fill, PositionManager.open_position,
    PositionManager.add_to_position, PositionManager.reduce_or_reverse,
    calculate_realized_pnl, PositionManager.mark_to_market,
    PositionManager.set_bar_index, PositionManager.snapshot_equity,
    PositionManager.total_equity, PositionManager.total_unrealized,
    PositionManager.used_margin_total, PositionManager.get_portfolio_state,
    calculate_unrealized_pnl, calculate_margin_required,
    RiskManager.on_bar, RiskManager.check_pre_trade,
    RealtimeRiskMonitor.update, RealtimeRiskMonitor.initEquity,
    RealtimeRiskMonitor.should_force_close, stopScan, StopEngine.on_bar,
    StopEngine.update_trailing, StopEngine.check_stop_loss,
    StopEngine.check_take_profit, StopEngine.check_trailing_stop,
    StopEngine.check_time_stop, Position.is_long,
    PreTradeRiskCheck.check, PreTradeRiskCheck.check_margin,
    PreTradeRiskCheck.check_daily_loss, PreTradeRiskCheck.update_daily_pnl,
    LimitChecker.check_position_limit, Side.BUY_ne_SELL, Side.SELL_ne_BUY,
      lookupSym, insertSym, removeSym,
    commW, o9buy, o9sell, o9buy2, strat9, b9_1, st9lit1, st9lit2, rk9,
    specOfTX, txSpec]

theorem st9eval3 : stateBefore specOfTX strat9 st0W bars9 3 = st9lit3 := by
  rw [show (3 : ℕ) = 2 + 1 from rfl,
    stateBefore_succ_of_get specOfTX strat9 st0W bars9 2 b9_2 rfl, st9eval2]
  norm_num [engineStep, engineStepCore,
    submitStrategyOrders, MatchingEngine.on_bar, matchScan, MatchingEngine.try_fill,
    MatchingEngine.create_fill, MatchingEngine.submit_order, calculate_notional_value,
    CommissionModel.calculate_commission, CommissionModel.calculate_tax,
    PositionManager.apply_fill, PositionManager.open_position,
    PositionManager.add_to_position, PositionManager.reduce_or_reverse,
    calculate_realized_pnl, PositionManager.mark_to_market,
    PositionManager.set_bar_index, PositionManager.snapshot_equity,
    PositionManager.total_equity, PositionManager.total_unrealized,
    PositionManager.used_margin_total, PositionManager.get_portfolio_state,
    calculate_unrealized_pnl, calculate_margin_required,
    RiskManager.on_bar, RiskManager.check_pre_trade,
    RealtimeRiskMonitor.update, RealtimeRiskMonitor.initEquity,
    RealtimeRiskMonitor.should_force_close, stopScan, StopEngine.on_bar,
    StopEngine.update_trailing, StopEngine.check_stop_loss,
    StopEngine.check_take_profit, StopEngine.check_trailing_stop,
    StopEngine.check_time_stop, Position.is_long,
    PreTradeRiskCheck.check, PreTradeRiskCheck.check_margin,
    PreTradeRiskCheck.check_daily_loss, PreTradeRiskCheck.update_daily_pnl,
    LimitChecker.check_position_limit, Side.BUY_ne_SELL, Side.SELL_ne_BUY,
      lookupSym, insertSym, removeSym,
    commW, o9buy, o9sell, o9buy2, strat9, b9_2, st9lit2, st9lit3, rk9,
    specOfTX, txSpec]

/-- Claim C9's reset part fails on the code: in the concrete run, the whole
realized loss (−100200) occurs in the first session (bars 0–2); bar 3 opens
the next session, produces no fill and realizes nothing, yet its pre-trade
check still rejects with the daily-loss reason, because the counter is fed
the whole-run cumulative realized P&L and no session-boundary reset is ever
invoked by the engine. -/
theorem C9_daily_loss_window_counterexample :
    (stateBefore specOfTX strat9 st0W bars9 3).pm.realized_pnl = -100200
    ∧ fillsAt specOfTX strat9 st0W bars9 3 = []
    ∧ (RiskManager.check_pre_trade specOfTX st9pre.risk st9pre.pm o9buy2).1
        = some "Daily loss limit reached"
    ∧ (stateBefore specOfTX strat9 st0W bars9 4).matching.pending_orders = [] := by
  have h4 : stateBefore specOfTX strat9 st0W bars9 4
      = (engineStep specOfTX strat9 3 st9lit3 b9_3).1 := by
    rw [show (4 : ℕ) = 3 + 1 from rfl,
      stateBefore_succ_of_get specOfTX strat9 st0W bars9 3 b9_3 rfl, st9eval3]
  refine ⟨?_, ?_, ?_, ?_⟩
  · rw [st9eval3]
    norm_num [st9lit3]
  · rw [fillsAt, show bars9.get? 3 = some b9_3 from rfl, st9eval3]
    norm_num [engineStep, engineStepCore, MatchingEngine.on_bar, matchScan,
      st9lit3]
  · rw [show st9pre = (engineStepCore specOfTX 3 (stateBefore specOfTX strat9 st0W bars9 3) b9_3).1 from rfl, st9eval3]
    norm_num [engineStepCore, MatchingEngine.on_bar, matchScan,
      PositionManager.mark_to_market, PositionManager.set_bar_index,
      PositionManager.total_equity, PositionManager.total_unrealized,
      PositionManager.used_margin_total, PositionManager.get_portfolio_state,
      calculate_unrealized_pnl, calculate_margin_required,
      RiskManager.on_bar, RiskManager.check_pre_trade,
      RealtimeRiskMonitor.update, RealtimeRiskMonitor.initEquity,
      RealtimeRiskMonitor.should_force_close, stopScan, StopEngine.on_bar,
      StopEngine.update_trailing, StopEngine.check_stop_loss,
      StopEngine.check_take_profit, StopEngine.check_trailing_stop,
      StopEngine.check_time_stop, Position.is_long,
      PreTradeRiskCheck.check, PreTradeRiskCheck.check_margin,
      PreTradeRiskCheck.check_daily_loss, PreTradeRiskCheck.update_daily_pnl,
      LimitChecker.check_position_limit, Side.BUY_ne_SELL, Side.SELL_ne_BUY,
      lookupSym, insertSym, removeSym,
      MatchingEngine.submit_order, o9buy2, b9_3, st9lit3, rk9, specOfTX, txSpec, commW]
  · rw [h4]
    norm_num [engineStep, engineStepCore,
      submitStrategyOrders, MatchingEngine.on_bar, matchScan, MatchingEngine.try_fill,
      MatchingEngine.create_fill, MatchingEngine.submit_order, calculate_notional_value,
      CommissionModel.calculate_commission, CommissionModel.calculate_tax,
      PositionManager.apply_fill, PositionManager.open_position,
      PositionManager.add_to_position, PositionManager.reduce_or_reverse,
      calculate_realized_pnl, PositionManager.mark_to_market,
      PositionManager.set_bar_index, PositionManager.snapshot_equity,
      PositionManager.total_equity, PositionManager.total_unrealized,
      PositionManager.used_margin_total, PositionManager.get_portfolio_state,
      calculate_unrealized_pnl, calculate_margin_required,
      RiskManager.on_bar, RiskManager.check_pre_trade,
      RealtimeRiskMonitor.update, RealtimeRiskMonitor.initEquity,
      RealtimeRiskMonitor.should_force_close, stopScan, StopEngine.on_bar,
      StopEngine.update_trailing, StopEngine.check_stop_loss,
      StopEngine.check_take_profit, StopEngine.check_trailing_stop,
      StopEngine.check_time_stop, Position.is_long,
      PreTradeRiskCheck.check, PreTradeRiskCheck.check_margin,
      PreTradeRiskCheck.check_daily_loss, PreTradeRiskCheck.update_daily_pnl,
      LimitChecker.check_position_limit, Side.BUY_ne_SELL, Side.SELL_ne_BUY,
      lookupSym, insertSym, removeSym,
      commW, o9buy, o9sell, o9buy2, strat9, b9_3, st9lit3, rk9, specOfTX, txSpec]

/-- Claim C9 amended: the pre-trade daily-loss rule is as claimed — the
check rejects (after margin and position-limit checks pass) exactly when
`−daily_realized_pnl ≥ max_daily_loss` — and the counter is fed through
`update_daily_pnl`; but the window is the whole run, not a session: every
`check_pre_trade` sets the counter to the manager's cumulative realized
P&L, and the engine never calls `reset_daily` / `reset_session`. -/
theorem C9_daily_loss_window_amended (specOf : String → ContractSpec)
    (rm : RiskManager) (pm : PositionManager) (order : OrderRequest)
    (pt : PreTradeRiskCheck) (lc : LimitChecker) (p : PortfolioState)
    (hh : rm.realtime.trading_halted = false) :
    ((RiskManager.check_pre_trade specOf rm pm order).2).pre_trade.daily_realized_pnl
        = pm.realized_pnl
    ∧ pt.check_daily_loss
        = (if -pt.daily_realized_pnl ≥ pt.max_daily_loss
           then some "Daily loss limit reached" else none)
    ∧ (PreTradeRiskCheck.check_margin specOf order p = none →
        lc.check_position_limit order p = none →
        PreTradeRiskCheck.check specOf pt lc order p = pt.check_daily_loss) := by
  refine ⟨?_, rfl, ?_⟩
  · unfold RiskManager.check_pre_trade
    rw [hh]
    dsimp only
    rfl
  · intro hm hl
    unfold PreTradeRiskCheck.check
    rw [hm, hl]

/-- Witness for the amended C9 at concrete states. -/
theorem C9_daily_loss_window_amended_witness :
    ((RiskManager.check_pre_trade specOfTX riskW pmCx orderW1).2).pre_trade.daily_realized_pnl
        = pmCx.realized_pnl
    ∧ ({ max_daily_loss := 100000, daily_realized_pnl := -100200 } : PreTradeRiskCheck).check_daily_loss
        = (if -(-100200 : ℚ) ≥ (100000 : ℚ)
           then some "Daily loss limit reached" else none)
    ∧ (PreTradeRiskCheck.check_margin specOfTX orderW1 pW6d = none →
        LimitChecker.check_position_limit { max_position_contracts := 10, max_total_exposure_pct := 1 / 2 } orderW1 pW6d = none →
        PreTradeRiskCheck.check specOfTX { max_daily_loss := 100000, daily_realized_pnl := -100200 }
          { max_position_contracts := 10, max_total_exposure_pct := 1 / 2 } orderW1 pW6d
          = ({ max_daily_loss := 100000, daily_realized_pnl := -100200 } : PreTradeRiskCheck).check_daily_loss) :=
  C9_daily_loss_window_amended specOfTX riskW pmCx orderW1
    { max_daily_loss := 100000, daily_realized_pnl := -100200 }
    { max_position_contracts := 10, max_total_exposure_pct := 1 / 2 } pW6d rfl

